import Mathlib

/-!
# Akmods key enrollment: the privileged helper and the library runner

A shallow embedding of `plugins/akmods/gs-akmods-helper.c`,
`lib/gs-akmods-private.c` (the runner, the key-state cache, Secure Boot), the
password dialog callbacks of `src/gs-akmods-dialog.c` and the key-state step
of the refine callback in `plugins/akmods/gs-plugin-akmods.c`.

Conventions of the embedding:

* a `gchar *` text is the list of its characters before the terminating NUL,
  so `*s == '\0'` is `s = []`; a `NULL` pointer is `none`;
* every call into GLib that asks the outside world something (is this a
  directory, spawn this program, wait for it, what time is it) takes the
  answer as an argument, and every function reports the processes it
  started, in order, next to its return value;
* `g_debug` logging is not part of the embedding.
-/

namespace Akmods

/-! ## Data model -/

/-- Enumeration `GsAkmodsState` of `gs-akmods-private.h`. -/
inductive GsAkmodsState
  | GS_AKMODS_STATE_ENROLLED
  | GS_AKMODS_STATE_NOT_FOUND
  | GS_AKMODS_STATE_NOT_ENROLLED
  | GS_AKMODS_STATE_PENDING
  | GS_AKMODS_STATE_ERROR
  deriving DecidableEq, Repr

open GsAkmodsState

/-- Integer value of each enumerator, as declared in the header. -/
def GsAkmodsState.toInt : GsAkmodsState → Int
  | GS_AKMODS_STATE_ENROLLED => 0
  | GS_AKMODS_STATE_NOT_FOUND => 1
  | GS_AKMODS_STATE_NOT_ENROLLED => 2
  | GS_AKMODS_STATE_PENDING => 3
  | GS_AKMODS_STATE_ERROR => 4

/-- Macro `GS_AKMODS_KEY_PATH`. -/
def GS_AKMODS_KEY_PATH : String := "/etc/pki/akmods/certs"

/-- Macro `GS_AKMODS_KEY_FILENAME`. -/
def GS_AKMODS_KEY_FILENAME : String := GS_AKMODS_KEY_PATH ++ "/public_key.der"

/-! ## GLib string helpers used by the classifier -/

/-- GLib's `TOLOWER` of `gstrfuncs.c`: only `A`..`Z` are changed. -/
def TOLOWER (c : Char) : Char :=
  if 'A' ≤ c ∧ c ≤ 'Z' then Char.ofNat (c.toNat - 'A'.toNat + 'a'.toNat) else c

/-- Value of `*s` for a C string: the first character, or 0 at the terminator. -/
def deref (s : List Char) : Nat :=
  match s with
  | [] => 0
  | c :: _ => c.toNat

/-- GLib's `g_ascii_strncasecmp (s1, s2, n)`: walk both strings while `n`
characters are left and neither has ended, comparing the lowered characters;
the first difference is returned, and when a string ends early the
difference of the current characters. -/
def g_ascii_strncasecmp : List Char → List Char → Nat → Int
  | _, _, 0 => 0
  | c1 :: s1, c2 :: s2, n + 1 =>
    if TOLOWER c1 ≠ TOLOWER c2 then
      ((TOLOWER c1).toNat : Int) - ((TOLOWER c2).toNat : Int)
    else
      g_ascii_strncasecmp s1 s2 n
  | s1, s2, _ + 1 => (deref s1 : Int) - (deref s2 : Int)

/-- Literal `NOT_FOUND_OUTPUT` of `gs_akmods_helper_check_result`. -/
def NOT_FOUND_OUTPUT : List Char := (GS_AKMODS_KEY_FILENAME ++ " not found\n").toList

/-- Literal `NOT_ENROLLED_OUTPUT`. -/
def NOT_ENROLLED_OUTPUT : List Char := (GS_AKMODS_KEY_FILENAME ++ " is not enrolled\n").toList

/-- Literal `PENDING_OUTPUT`. -/
def PENDING_OUTPUT : List Char :=
  (GS_AKMODS_KEY_FILENAME ++ " is already in the enrollment request\n").toList

/-- Literal `ENROLLED_OUTPUT`. -/
def ENROLLED_OUTPUT : List Char := (GS_AKMODS_KEY_FILENAME ++ " is already enrolled\n").toList

/-- Function `gs_akmods_helper_check_result`: the state and the text sent to
`g_printerr`. `none` is the abort of `g_assert (val_stdout != NULL)`. -/
def gs_akmods_helper_check_result (val_stdout : Option (List Char)) (with_print : Bool) :
    Option (GsAkmodsState × List Char) :=
  match val_stdout with
  | none => none
  | some out =>
    if g_ascii_strncasecmp out NOT_FOUND_OUTPUT NOT_FOUND_OUTPUT.length = 0 then
      some (GS_AKMODS_STATE_NOT_FOUND, [])
    else if g_ascii_strncasecmp out NOT_ENROLLED_OUTPUT NOT_ENROLLED_OUTPUT.length = 0 then
      some (GS_AKMODS_STATE_NOT_ENROLLED, [])
    else if g_ascii_strncasecmp out PENDING_OUTPUT PENDING_OUTPUT.length = 0 then
      some (GS_AKMODS_STATE_PENDING, [])
    else if g_ascii_strncasecmp out ENROLLED_OUTPUT ENROLLED_OUTPUT.length = 0 then
      some (GS_AKMODS_STATE_ENROLLED, [])
    else if with_print then
      some (GS_AKMODS_STATE_ERROR, "Unexpected output '".toList ++ out ++ "'".toList)
    else
      some (GS_AKMODS_STATE_ERROR, [])

/-! ## GLib errors, processes and cancellation -/

/-- Error domains that occur in this code. -/
inductive GQuark
  | G_IO_ERROR
  | G_SPAWN_ERROR
  | G_SPAWN_EXIT_ERROR
  deriving DecidableEq, Repr

open GQuark

/-- GLib's `GError`: domain, code and message. -/
structure GError where
  domain : GQuark
  code : Int
  message : List Char
  deriving DecidableEq, Repr

/-- GLib's `G_IO_ERROR_FAILED`. -/
def G_IO_ERROR_FAILED : Int := 0

/-- GLib's `G_IO_ERROR_NOT_DIRECTORY`. -/
def G_IO_ERROR_NOT_DIRECTORY : Int := 4

/-- GLib's `G_IO_ERROR_CANCELLED`. -/
def G_IO_ERROR_CANCELLED : Int := 19

/-- GLib's `G_SPAWN_ERROR_FAILED`. -/
def G_SPAWN_ERROR_FAILED : Int := 19

/-- GLib's `g_error_matches`. -/
def g_error_matches (err : Option GError) (domain : GQuark) (code : Int) : Bool :=
  match err with
  | none => false
  | some e => e.domain = domain && e.code = code

/-- How a child process ended, as `waitpid` reports it. -/
inductive WaitStatus
  | exited (code : Nat)
  | signaled (sig : Nat)
  deriving DecidableEq, Repr

/-- The standard-input stream of a child: the outcome of each call made on
it (`none` is success). `write_all k` is the outcome of the `k`-th
`g_output_stream_write_all` call, counted from 0. -/
structure GOutputStream where
  write_all : Nat → Option GError
  flush : Option GError
  close : Option GError

/-- A started child process as seen through the `GSubprocess` API: its pipes
(`none` when the pipe does not exist; for the output pipes, the text the read
loop collects until end of stream), how it ended, and the message GLib puts
into the error for an unsuccessful end (a translated text). -/
structure GSubprocess where
  stdin_pipe : Option GOutputStream
  stdout_pipe : Option (List Char)
  stderr_pipe : Option (List Char)
  status : WaitStatus
  wait_message : List Char

/-- A `GCancellable` as this code observes it: whether it is found cancelled
by `g_subprocess_wait_check`, whether it is found cancelled by the
`g_cancellable_set_error_if_cancelled` call after a successful wait, and the
message of the cancellation error (a translated text). -/
structure GCancellable where
  at_wait : Bool
  after_wait : Bool
  message : List Char

/-- GLib's `g_spawn_check_wait_status`, `none` for `TRUE`: exit status 0
succeeds; another exit status `c` gives `(G_SPAWN_EXIT_ERROR, c)`; any other
end gives `(G_SPAWN_ERROR, G_SPAWN_ERROR_FAILED)`. -/
def g_spawn_check_wait_status (status : WaitStatus) (message : List Char) : Option GError :=
  match status with
  | .exited 0 => none
  | .exited (c + 1) => some ⟨G_SPAWN_EXIT_ERROR, ((c + 1 : Nat) : Int), message⟩
  | .signaled _ => some ⟨G_SPAWN_ERROR, G_SPAWN_ERROR_FAILED, message⟩

/-- GLib's `g_subprocess_wait_check`, `none` for `TRUE`: a cancelled
cancellable gives `G_IO_ERROR_CANCELLED`, otherwise the wait status decides. -/
def g_subprocess_wait_check (subprocess : GSubprocess) (cancellable : Option GCancellable) :
    Option GError :=
  match cancellable with
  | some c =>
    if c.at_wait then some ⟨G_IO_ERROR, G_IO_ERROR_CANCELLED, c.message⟩
    else g_spawn_check_wait_status subprocess.status subprocess.wait_message
  | none => g_spawn_check_wait_status subprocess.status subprocess.wait_message

/-- GLib's `g_cancellable_set_error_if_cancelled` at the point after a
successful wait: the error it sets, `none` when it returns `FALSE`. -/
def g_cancellable_set_error_if_cancelled (cancellable : Option GCancellable) : Option GError :=
  match cancellable with
  | none => none
  | some c => if c.after_wait then some ⟨G_IO_ERROR, G_IO_ERROR_CANCELLED, c.message⟩ else none

/-- One call of `g_subprocess_newv`: the argument vector, and the bytes that
the caller then wrote successfully to the child's standard input. -/
structure Invocation where
  argv : List String
  input : List Char
  deriving DecidableEq, Repr

/-- The C test `v != NULL && *v != '\0'`. -/
def has_text (v : Option (List Char)) : Bool :=
  match v with
  | some (_ :: _) => true
  | _ => false

/-- The C expression `v != NULL && *v != '\0' ? v : ""`. -/
def text_or_empty (v : Option (List Char)) : List Char :=
  match v with
  | some s => s
  | none => []

/-- The five `%s` of the composed diagnostic: the wait message, then
`"\nstdout: "` and stdout when stdout has text, then `"\nstderr: "` and stderr
when stderr has text. -/
def composed_message (message : List Char) (val_stdout val_stderr : Option (List Char)) :
    List Char :=
  message
    ++ (if has_text val_stdout then "\nstdout: ".toList else [])
    ++ (if has_text val_stdout then text_or_empty val_stdout else [])
    ++ (if has_text val_stderr then "\nstderr: ".toList else [])
    ++ (if has_text val_stderr then text_or_empty val_stderr else [])

/-! ## The privileged helper (`gs-akmods-helper.c`) -/

/-- What a helper function did: its return value, the text it sent to
`g_printerr`, and the processes it started, oldest first. -/
structure HelperRun where
  state : GsAkmodsState
  printed : List Char
  spawned : List Invocation
  deriving DecidableEq, Repr

/-- Function `gs_akmods_helper_read_stream`: `NULL` for a `NULL` stream,
otherwise everything read until the stream ends. -/
def gs_akmods_helper_read_stream (stream : Option (List Char)) : Option (List Char) :=
  match stream with
  | none => none
  | some text => some text

/-- Literal `NOT_FOUND_ERROR` of `gs_akmods_helper_test`. -/
def NOT_FOUND_ERROR : List Char := ("Failed to open " ++ GS_AKMODS_KEY_FILENAME ++ "\n").toList

/-- Text printed only `if (with_print)`. -/
def print_if (with_print : Bool) (text : List Char) : List Char :=
  if with_print then text else []

/-- Function `gs_akmods_helper_test`. `is_dir` answers
`g_file_test (GS_AKMODS_KEY_PATH, G_FILE_TEST_IS_DIR)` and `spawn` is the
outcome of `g_subprocess_newv` for `mokutil --test-key <key file>`. -/
def gs_akmods_helper_test (with_print : Bool) (is_dir : Bool)
    (spawn : Except GError GSubprocess) : Option HelperRun :=
  let args : List String := ["mokutil", "--test-key", GS_AKMODS_KEY_FILENAME]
  if !is_dir then
    some ⟨GS_AKMODS_STATE_ERROR, print_if with_print "Akmods key directory not found.\n".toList, []⟩
  else
    match spawn with
    | .error local_error =>
      some ⟨GS_AKMODS_STATE_ERROR,
        print_if with_print
          ("Failed to call 'mokutil --test-key': ".toList ++ local_error.message ++ "\n".toList),
        [⟨args, []⟩]⟩
    | .ok subprocess =>
      let val_stdout := gs_akmods_helper_read_stream subprocess.stdout_pipe
      let val_stderr := gs_akmods_helper_read_stream subprocess.stderr_pipe
      match g_subprocess_wait_check subprocess none with
      | some local_error =>
        if !has_text val_stdout && has_text val_stderr then
          if g_ascii_strncasecmp (text_or_empty val_stderr) NOT_FOUND_ERROR
              NOT_FOUND_ERROR.length = 0 then
            some ⟨GS_AKMODS_STATE_NOT_FOUND, [], [⟨args, []⟩]⟩
          else
            some ⟨GS_AKMODS_STATE_ERROR,
              print_if with_print
                ("Failed to call 'mokutil --test-key': ".toList ++ text_or_empty val_stderr),
              [⟨args, []⟩]⟩
        else if val_stdout.isSome && g_error_matches (some local_error) G_SPAWN_EXIT_ERROR 1 then
          match gs_akmods_helper_check_result val_stdout with_print with
          | none => none
          | some (state, printed) => some ⟨state, printed, [⟨args, []⟩]⟩
        else
          some ⟨GS_AKMODS_STATE_ERROR,
            print_if with_print
              ("Failed to call 'mokutil --test-key': ".toList
                ++ composed_message local_error.message val_stdout val_stderr ++ "\n".toList),
            [⟨args, []⟩]⟩
      | none =>
        if has_text val_stderr then
          some ⟨GS_AKMODS_STATE_ERROR,
            print_if with_print
              ("Something failed while calling 'mokutil --test-key': ".toList
                ++ text_or_empty val_stderr ++ "\n".toList),
            [⟨args, []⟩]⟩
        else
          match gs_akmods_helper_check_result val_stdout with_print with
          | none => none
          | some (state, printed) => some ⟨state, printed, [⟨args, []⟩]⟩

/-- Function `gs_akmods_helper_generate`; `spawn` is the outcome of
`g_subprocess_newv` for `kmodgenca -a`. -/
def gs_akmods_helper_generate (spawn : Except GError GSubprocess) : HelperRun :=
  let args : List String := ["kmodgenca", "-a"]
  match spawn with
  | .error local_error =>
    ⟨GS_AKMODS_STATE_ERROR,
      "Failed to call 'kmodgenca': ".toList ++ local_error.message ++ "\n".toList, [⟨args, []⟩]⟩
  | .ok subprocess =>
    let val_stdout := gs_akmods_helper_read_stream subprocess.stdout_pipe
    let val_stderr := gs_akmods_helper_read_stream subprocess.stderr_pipe
    match g_subprocess_wait_check subprocess none with
    | some local_error =>
      if !has_text val_stdout && has_text val_stderr then
        ⟨GS_AKMODS_STATE_ERROR,
          "Failed to call 'kmodgenca': ".toList ++ text_or_empty val_stderr ++ "\n".toList,
          [⟨args, []⟩]⟩
      else
        ⟨GS_AKMODS_STATE_ERROR,
          "Failed to call 'kmodgenca': ".toList
            ++ composed_message local_error.message val_stdout val_stderr ++ "\n".toList,
          [⟨args, []⟩]⟩
    | none => ⟨GS_AKMODS_STATE_NOT_ENROLLED, [], [⟨args, []⟩]⟩

/-- The chain `write_all (c0) || write_all (c1) || ...` on one stream,
starting with call number `k`: the first error, if any, and the bytes of the
calls that succeeded before it. -/
def write_chunks (stream : GOutputStream) : Nat → List (List Char) → Option GError × List Char
  | _, [] => (none, [])
  | k, chunk :: rest =>
    match stream.write_all k with
    | some e => (some e, [])
    | none =>
      let r := write_chunks stream (k + 1) rest
      (r.1, chunk ++ r.2)

/-- Function `gs_akmods_helper_import`. `stdin` is what `getchar` delivers
until `EOF`; `spawn` is the outcome of `g_subprocess_newv` for
`mokutil --import <key file>`. `none` is the crash on a missing stdin pipe,
which the function does not check for. -/
def gs_akmods_helper_import (stdin : List Char) (spawn : Except GError GSubprocess) :
    Option HelperRun :=
  let args : List String := ["mokutil", "--import", GS_AKMODS_KEY_FILENAME]
  let password := stdin
  if password.length = 0 then
    some ⟨GS_AKMODS_STATE_ERROR, "Password cannot be empty.\n".toList, []⟩
  else
    match spawn with
    | .error local_error =>
      some ⟨GS_AKMODS_STATE_ERROR,
        "Failed to call 'mokutil --import': ".toList ++ local_error.message ++ "\n".toList,
        [⟨args, []⟩]⟩
    | .ok subprocess =>
      match subprocess.stdin_pipe with
      | none => none
      | some stdin_stream =>
        let written := write_chunks stdin_stream 0 [password, ['\n'], password, ['\n']]
        let failure : Option GError :=
          match written.1 with
          | some e => some e
          | none => stdin_stream.flush
        match failure with
        | some local_error =>
          some ⟨GS_AKMODS_STATE_ERROR,
            "Failed to enter password to 'mokutil --import': ".toList
              ++ local_error.message ++ "\n".toList,
            [⟨args, written.2⟩]⟩
        | none =>
          let val_stdout := gs_akmods_helper_read_stream subprocess.stdout_pipe
          let val_stderr := gs_akmods_helper_read_stream subprocess.stderr_pipe
          match g_subprocess_wait_check subprocess none with
          | some local_error =>
            if !has_text val_stdout && has_text val_stderr then
              some ⟨GS_AKMODS_STATE_ERROR,
                "Failed to call 'mokutil --import': ".toList
                  ++ text_or_empty val_stderr ++ "\n".toList,
                [⟨args, written.2⟩]⟩
            else
              some ⟨GS_AKMODS_STATE_ERROR,
                "Failed to call 'mokutil --import': ".toList
                  ++ composed_message local_error.message val_stdout val_stderr
                  ++ "\n".toList,
                [⟨args, written.2⟩]⟩
          | none =>
            if has_text val_stderr then
              some ⟨GS_AKMODS_STATE_ERROR,
                "Something failed while calling 'mokutil --import': ".toList
                  ++ text_or_empty val_stderr ++ "\n".toList,
                [⟨args, written.2⟩]⟩
            else
              some ⟨GS_AKMODS_STATE_PENDING, [], [⟨args, written.2⟩]⟩

/-- Everything the outside world answers during one run of the helper: for
each of the two possible `gs_akmods_helper_test` calls whether the key
directory exists and what spawning `mokutil --test-key` gives, what spawning
`kmodgenca` and `mokutil --import` gives, and the helper's standard input. -/
structure HelperWorld where
  is_dir : Bool
  test_key : Except GError GSubprocess
  is_dir_again : Bool
  test_key_again : Except GError GSubprocess
  kmodgenca : Except GError GSubprocess
  stdin : List Char
  import_key : Except GError GSubprocess

/-- Run `next` after `first`, keeping what `first` printed and started. -/
def HelperRun.andThen (first : HelperRun) (next : HelperRun) : HelperRun :=
  ⟨next.state, first.printed ++ next.printed, first.spawned ++ next.spawned⟩

/-- Function `gs_akmods_helper_enroll`. -/
def gs_akmods_helper_enroll (w : HelperWorld) : Option HelperRun :=
  match gs_akmods_helper_test false w.is_dir w.test_key with
  | none => none
  | some probe =>
    if probe.state = GS_AKMODS_STATE_ERROR then
      match gs_akmods_helper_test true w.is_dir_again w.test_key_again with
      | none => none
      | some again => some (probe.andThen again)
    else if probe.state = GS_AKMODS_STATE_ENROLLED ∨ probe.state = GS_AKMODS_STATE_PENDING then
      some probe
    else
      let generated : HelperRun :=
        if probe.state = GS_AKMODS_STATE_NOT_FOUND then
          probe.andThen (gs_akmods_helper_generate w.kmodgenca)
        else probe
      if generated.state = GS_AKMODS_STATE_NOT_ENROLLED then
        match gs_akmods_helper_import w.stdin w.import_key with
        | none => none
        | some imported => some (generated.andThen imported)
      else some generated

/-- Function `main` of the helper; `argv` includes the program name. -/
def main (argv : List String) (w : HelperWorld) : Option HelperRun :=
  if argv.length ≠ 2 then
    some ⟨GS_AKMODS_STATE_ERROR, "Requires one argument, --test or --enroll\n".toList, []⟩
  else if argv.get? 1 = some "--test" then
    gs_akmods_helper_test true w.is_dir w.test_key
  else if argv.get? 1 = some "--enroll" then
    gs_akmods_helper_enroll w
  else
    some ⟨GS_AKMODS_STATE_ERROR,
      "Unknown argument '".toList ++ (argv.getD 1 "").toList ++ "'\n".toList, []⟩

/-! ## The library (`gs-akmods-private.c`) -/

/-- What a library call did: the returned state, the error stored through
the `error` argument (`none` when it is left unset), and the processes it
started, oldest first. -/
structure RunnerResult where
  state : GsAkmodsState
  error : Option GError
  spawned : List Invocation
  deriving DecidableEq, Repr

/-- Function `gs_akmods_read_stream`: `NULL` for a `NULL` stream, otherwise
everything read until the stream ends. -/
def gs_akmods_read_stream (stream : Option (List Char)) : Option (List Char) :=
  match stream with
  | none => none
  | some text => some text

/-- Function `gs_akmods_read_subprocess_pipes`, both out-pointers given. -/
def gs_akmods_read_subprocess_pipes (subprocess : GSubprocess) :
    Option (List Char) × Option (List Char) :=
  (gs_akmods_read_stream subprocess.stdout_pipe, gs_akmods_read_stream subprocess.stderr_pipe)

/-- The `switch (result_error->code)` of `gs_akmods_execute_sync`: the state
returned for an exit code that is one of the four key states, `none` for
`GS_AKMODS_STATE_ERROR` and `default`. -/
def state_of_exit_code (code : Int) : Option GsAkmodsState :=
  if code = 0 then some GS_AKMODS_STATE_ENROLLED
  else if code = 1 then some GS_AKMODS_STATE_NOT_FOUND
  else if code = 2 then some GS_AKMODS_STATE_NOT_ENROLLED
  else if code = 3 then some GS_AKMODS_STATE_PENDING
  else none

/-- The end of `gs_akmods_execute_sync` once `result_error` is set: an exit
error whose code is a key state returns that state and drops the error,
anything else propagates the error and returns `GS_AKMODS_STATE_ERROR`. -/
def finish_with_error (result_error : GError) (spawned : List Invocation) : RunnerResult :=
  if result_error.domain = G_SPAWN_EXIT_ERROR then
    match state_of_exit_code result_error.code with
    | some state => ⟨state, none, spawned⟩
    | none => ⟨GS_AKMODS_STATE_ERROR, some result_error, spawned⟩
  else
    ⟨GS_AKMODS_STATE_ERROR, some result_error, spawned⟩

/-- The stdin part of `gs_akmods_execute_sync`: the error that ends the call
early, if any, and the bytes written to the child. -/
def feed_stdin (subprocess : GSubprocess) (stdin_str : Option (List Char)) :
    Option GError × List Char :=
  match stdin_str with
  | none => (none, [])
  | some str =>
    match subprocess.stdin_pipe with
    | none => (some ⟨G_IO_ERROR, G_IO_ERROR_FAILED, "Failed to get stdin of the process".toList⟩, [])
    | some stream =>
      match stream.write_all 0 with
      | some e => (some e, [])
      | none =>
        match stream.flush with
        | some e => (some e, str)
        | none =>
          match stream.close with
          | some e => (some e, str)
          | none => (none, str)

/-- Function `gs_akmods_execute_sync`; `spawn` is the outcome of
`g_subprocess_newv (args, ...)`. -/
def gs_akmods_execute_sync (args : List String) (stdin_str : Option (List Char))
    (cancellable : Option GCancellable) (spawn : Except GError GSubprocess) : RunnerResult :=
  match spawn with
  | .error e => ⟨GS_AKMODS_STATE_ERROR, some e, [⟨args, []⟩]⟩
  | .ok subprocess =>
    match feed_stdin subprocess stdin_str with
    | (some e, input) => ⟨GS_AKMODS_STATE_ERROR, some e, [⟨args, input⟩]⟩
    | (none, input) =>
      let val_stdout := (gs_akmods_read_subprocess_pipes subprocess).1
      let val_stderr := (gs_akmods_read_subprocess_pipes subprocess).2
      match g_subprocess_wait_check subprocess cancellable with
      | some local_error =>
        if !has_text val_stdout && has_text val_stderr then
          finish_with_error ⟨local_error.domain, local_error.code, text_or_empty val_stderr⟩
            [⟨args, input⟩]
        else
          finish_with_error
            ⟨local_error.domain, local_error.code,
              composed_message local_error.message val_stdout val_stderr⟩
            [⟨args, input⟩]
      | none =>
        match g_cancellable_set_error_if_cancelled cancellable with
        | some local_error => finish_with_error local_error [⟨args, input⟩]
        | none =>
          if has_text val_stderr then
            finish_with_error ⟨G_IO_ERROR, G_IO_ERROR_FAILED, text_or_empty val_stderr⟩
              [⟨args, input⟩]
          else
            ⟨GS_AKMODS_STATE_ENROLLED, none, [⟨args, input⟩]⟩

/-- The two function-local statics of `gs_akmods_get_key_state_sync`. -/
structure KeyStateCache where
  last_state : GsAkmodsState
  last_state_time : Int
  deriving DecidableEq, Repr

/-- The statics at process start: zero-initialised, and 0 is
`GS_AKMODS_STATE_ENROLLED`. -/
def KeyStateCache.initial : KeyStateCache := ⟨GS_AKMODS_STATE_ENROLLED, 0⟩

/-- GLib's `G_USEC_PER_SEC`. -/
def G_USEC_PER_SEC : Int := 1000000

/-- What one call of `gs_akmods_get_key_state_sync` did: as `RunnerResult`,
and the statics after the call. -/
structure KeyStateResult where
  state : GsAkmodsState
  error : Option GError
  spawned : List Invocation
  cache : KeyStateCache
  deriving DecidableEq, Repr

/-- Function `gs_akmods_get_key_state_sync`. `libexecdir` is the build-time
`LIBEXECDIR`, `cache` the statics before the call, `is_dir` answers
`g_file_test (GS_AKMODS_KEY_PATH, G_FILE_TEST_IS_DIR)`, `now` is the first
`g_get_real_time ()` (microseconds), `spawn` the outcome of starting the
helper and `now_after` the second `g_get_real_time ()`. -/
def gs_akmods_get_key_state_sync (libexecdir : String) (cache : KeyStateCache)
    (is_dir : Bool) (now : Int) (cancellable : Option GCancellable)
    (spawn : Except GError GSubprocess) (now_after : Int) : KeyStateResult :=
  let args : List String :=
    ["pkexec", libexecdir ++ "/gnome-software-akmods-helper", "--test"]
  if !is_dir then
    ⟨GS_AKMODS_STATE_ERROR,
      some ⟨G_IO_ERROR, G_IO_ERROR_NOT_DIRECTORY, "Akmods key directory not found.".toList⟩,
      [], cache⟩
  else if now > cache.last_state_time + G_USEC_PER_SEC * 5 then
    let r := gs_akmods_execute_sync args none cancellable spawn
    ⟨r.state, r.error, r.spawned, ⟨r.state, now_after⟩⟩
  else
    ⟨cache.last_state, none, [], cache⟩

/-- Function `gs_akmods_enroll_sync`; `none` is the abort of
`g_assert (password != NULL)`. -/
def gs_akmods_enroll_sync (libexecdir : String) (password : Option (List Char))
    (cancellable : Option GCancellable) (spawn : Except GError GSubprocess) :
    Option RunnerResult :=
  let args : List String :=
    ["pkexec", libexecdir ++ "/gnome-software-akmods-helper", "--enroll"]
  match password with
  | none => none
  | some _ => some (gs_akmods_execute_sync args password cancellable spawn)

/-! ## The password dialog (`gs-akmods-dialog.c`) -/

/-- What `gs_akmods_dialog_prepare_reboot_cb` does with the finished task. -/
inductive DialogAction
  | nothing
  | show_error_dialog (title : List Char) (details : List Char)
  | reboot_and_close
  deriving DecidableEq, Repr

/-- Function `gs_akmods_dialog_prepare_reboot_cb`; `task_error` is the error
`g_task_propagate_boolean` hands out, `none` when it returns `TRUE`. -/
def gs_akmods_dialog_prepare_reboot_cb (task_error : Option GError) : DialogAction :=
  match task_error with
  | some local_error =>
    if g_error_matches (some local_error) G_IO_ERROR G_IO_ERROR_CANCELLED then
      .nothing
    else if !g_error_matches (some local_error) G_SPAWN_EXIT_ERROR 126 then
      .show_error_dialog "Failed to prepare reboot".toList local_error.message
    else
      .nothing
  | none => .reboot_and_close

/-- The end of `gs_akmods_dialog_prepare_reboot_thread`, after
`gs_akmods_enroll_sync` returned `enrolled`: the task returns the error when
the state is `GS_AKMODS_STATE_ERROR` and `TRUE` otherwise. `some none` is
`TRUE`, `some (some e)` is the error `e`, and `none` is
`g_task_return_error` called with `NULL`. -/
def gs_akmods_dialog_prepare_reboot_thread (enrolled : RunnerResult) :
    Option (Option GError) :=
  if enrolled.state = GS_AKMODS_STATE_ERROR then
    match enrolled.error with
    | some local_error => some (some local_error)
    | none => none
  else some none

/-- The two widget properties `gs_akmods_dialog_password_changed_cb` sets. -/
structure PasswordWidgets where
  password_error_image_visible : Bool
  apply_button_sensitive : Bool
  deriving DecidableEq, Repr

/-- The loop of `gs_akmods_dialog_password_changed_cb`: `correct` and
`n_letters` after the remaining characters. -/
def password_scan : List Char → Bool → Nat → Bool × Nat
  | [], correct, n_letters => (correct, n_letters)
  | chr :: rest, correct, n_letters =>
    password_scan rest
      (correct && (('a' ≤ chr && chr ≤ 'z') || ('A' ≤ chr && chr ≤ 'Z')
        || ('0' ≤ chr && chr ≤ '9')))
      (n_letters + 1)

/-- Function `gs_akmods_dialog_password_changed_cb` on the entry text. -/
def gs_akmods_dialog_password_changed_cb (text : List Char) : PasswordWidgets :=
  let r := password_scan text true 0
  ⟨!r.1, r.1 && decide (r.2 > 0)⟩

/-! ## Order of the calls in `gs_akmods_helper_import` -/

/-- A call that `gs_akmods_helper_import` makes for its child process. -/
inductive ChildCall
  | spawn (argv : List String)
  | write_all (bytes : List Char)
  | flush
  | read_stdout
  | read_stderr
  | wait_check
  deriving DecidableEq, Repr

/-- The `g_output_stream_write_all` calls of the chain
`write_all (c0) || write_all (c1) || ...`, starting with call number `k`:
every call up to and including the first that fails. -/
def write_calls (stream : GOutputStream) : Nat → List (List Char) → List ChildCall
  | _, [] => []
  | k, chunk :: rest =>
    match stream.write_all k with
    | some _ => [.write_all chunk]
    | none => .write_all chunk :: write_calls stream (k + 1) rest

/-- Function `gs_akmods_helper_import` again, this time as the list of the
calls it makes for the child, in program order: `g_subprocess_newv`, the
writes, the flush, the two `gs_akmods_helper_read_stream` calls and
`g_subprocess_wait_check`. -/
def gs_akmods_helper_import_calls (stdin : List Char) (spawn : Except GError GSubprocess) :
    List ChildCall :=
  let args : List String := ["mokutil", "--import", GS_AKMODS_KEY_FILENAME]
  let password := stdin
  if password.length = 0 then []
  else
    match spawn with
    | .error _ => [.spawn args]
    | .ok subprocess =>
      match subprocess.stdin_pipe with
      | none => [.spawn args, .write_all password]
      | some stdin_stream =>
        let chunks := [password, ['\n'], password, ['\n']]
        match (write_chunks stdin_stream 0 chunks).1 with
        | some _ => .spawn args :: write_calls stdin_stream 0 chunks
        | none =>
          match stdin_stream.flush with
          | some _ => .spawn args :: (write_calls stdin_stream 0 chunks ++ [.flush])
          | none =>
            .spawn args ::
              (write_calls stdin_stream 0 chunks
                ++ [.flush, .read_stdout, .read_stderr, .wait_check])

/-! ## Secure Boot (`gs-akmods-private.c`) -/

/-- Enumeration `GsSecurebootState` of `gs-akmods-private.h`. -/
inductive GsSecurebootState
  | GS_SECUREBOOT_STATE_UNKNOWN
  | GS_SECUREBOOT_STATE_DISABLED
  | GS_SECUREBOOT_STATE_ENABLED
  | GS_SECUREBOOT_STATE_NOT_SUPPORTED
  deriving DecidableEq, Repr

open GsSecurebootState

/-- Integer value of each enumerator, as declared in the header. -/
def GsSecurebootState.toInt : GsSecurebootState → Int
  | GS_SECUREBOOT_STATE_UNKNOWN => -1
  | GS_SECUREBOOT_STATE_DISABLED => 0
  | GS_SECUREBOOT_STATE_ENABLED => 1
  | GS_SECUREBOOT_STATE_NOT_SUPPORTED => 2

/-- What a successful `g_spawn_sync` stores through its out-pointers. -/
structure SpawnSyncOutput where
  standard_output : Option (List Char)
  standard_error : Option (List Char)
  wait_status : Int
  deriving DecidableEq, Repr

/-- What a Secure Boot call did: the returned value, the file-level static
`secureboot_state` after the call, and the processes it started. -/
structure SecurebootResult where
  state : GsSecurebootState
  secureboot_state : GsSecurebootState
  spawned : List Invocation
  deriving DecidableEq, Repr

/-- Literal `ENABLED_OUTPUT` of `gs_akmods_get_secureboot_state_sync`. -/
def ENABLED_OUTPUT : List Char := "SecureBoot enabled\n".toList

/-- Literal `DISABLED_OUTPUT`. -/
def DISABLED_OUTPUT : List Char := "SecureBoot disabled\n".toList

/-- Literal `NOT_SUPPORTED_OUTPUT`. -/
def NOT_SUPPORTED_OUTPUT : List Char :=
  "EFI variables are not supported on this system\n".toList

/-- Function `gs_akmods_get_secureboot_state_sync`. `secureboot_state` is the
static before the call and `spawn` the outcome of `g_spawn_sync` for
`mokutil --sb-state`. -/
def gs_akmods_get_secureboot_state_sync (secureboot_state : GsSecurebootState)
    (spawn : Except GError SpawnSyncOutput) : SecurebootResult :=
  let argv : List String := ["mokutil", "--sb-state"]
  if secureboot_state ≠ GS_SECUREBOOT_STATE_UNKNOWN then
    ⟨secureboot_state, secureboot_state, []⟩
  else
    match spawn with
    | .error _ => ⟨secureboot_state, secureboot_state, [⟨argv, []⟩]⟩
    | .ok r =>
      match r.standard_output with
      | none => ⟨secureboot_state, secureboot_state, [⟨argv, []⟩]⟩
      | some standard_output =>
        if g_ascii_strncasecmp standard_output ENABLED_OUTPUT ENABLED_OUTPUT.length = 0 then
          ⟨GS_SECUREBOOT_STATE_ENABLED, GS_SECUREBOOT_STATE_ENABLED, [⟨argv, []⟩]⟩
        else if g_ascii_strncasecmp standard_output DISABLED_OUTPUT DISABLED_OUTPUT.length = 0
        then
          ⟨GS_SECUREBOOT_STATE_DISABLED, GS_SECUREBOOT_STATE_DISABLED, [⟨argv, []⟩]⟩
        else
          match r.standard_error with
          | some standard_error =>
            if standard_output = [] ∧
                g_ascii_strncasecmp standard_error NOT_SUPPORTED_OUTPUT
                  NOT_SUPPORTED_OUTPUT.length = 0 then
              ⟨GS_SECUREBOOT_STATE_NOT_SUPPORTED, GS_SECUREBOOT_STATE_NOT_SUPPORTED,
                [⟨argv, []⟩]⟩
            else ⟨secureboot_state, secureboot_state, [⟨argv, []⟩]⟩
          | none => ⟨secureboot_state, secureboot_state, [⟨argv, []⟩]⟩

/-- Function `gs_akmods_get_last_secureboot_state`. -/
def gs_akmods_get_last_secureboot_state (secureboot_state : GsSecurebootState) :
    SecurebootResult :=
  ⟨secureboot_state, secureboot_state, []⟩

/-! ## The plugin (`gs-plugin-akmods.c`) -/

/-- The key-state step of `gs_akmods_refine_thread_cb`: after
`gs_akmods_get_key_state_sync` returned `r`, the text the callback logs when
the state is `GS_AKMODS_STATE_ERROR`, which is `local_error->message`.
`some none` is no logging; `none` is the read through a `NULL`
`local_error`. -/
def refine_key_state_message (r : KeyStateResult) : Option (Option (List Char)) :=
  if r.state = GS_AKMODS_STATE_ERROR then
    match r.error with
    | some local_error => some (some local_error.message)
    | none => none
  else some none

/-! ## Vocabulary of the statements -/

/-- The text `s` begins with the literal `lit` when ASCII case is ignored:
its first `lit.length` characters, lowered, are the lowered literal. -/
def begins_ignoring_case (s lit : List Char) : Prop :=
  (s.take lit.length).map TOLOWER = lit.map TOLOWER

instance (s lit : List Char) : Decidable (begins_ignoring_case s lit) :=
  inferInstanceAs (Decidable (_ = _))

/-- The cancellable is found cancelled by the wait. -/
def cancelled_at_wait (cancellable : Option GCancellable) : Bool :=
  match cancellable with
  | some c => c.at_wait
  | none => false

/-- The cancellable is found cancelled after a successful wait. -/
def cancelled_after_wait (cancellable : Option GCancellable) : Bool :=
  match cancellable with
  | some c => c.after_wait
  | none => false

/-- A stdin failure, read off the outside world: there is input to feed and
either the started process has no stdin pipe, or the write of the input, the
flush or the close of that pipe fails. -/
def stdin_fails (p : GSubprocess) (stdin_str : Option (List Char)) : Bool :=
  match stdin_str with
  | none => false
  | some _ =>
    match p.stdin_pipe with
    | none => true
    | some stream =>
      (stream.write_all 0).isSome || stream.flush.isSome || stream.close.isSome

/-- The outcome table of the Subprocess Runner in the words of the
specification: the state, and whether an error is set. Exit codes 1, 2, 3 are
the states with these ordinals, without error; exit zero with no text on
stderr and no cancellation is `ENROLLED` without error; everything else
(spawn failure, stdin failure, cancellation, exit zero with text on stderr,
exit code 4 or above, death by signal) is `ERROR` with an error. An exit
code is an outcome only when the process was started, fed and waited for, so
the failures that come before the wait ends are listed first. Every row is
decided by what the outside world answers, none by the code. -/
def runner_outcome_table (stdin_str : Option (List Char)) (cancellable : Option GCancellable)
    (spawn : Except GError GSubprocess) : GsAkmodsState × Bool :=
  match spawn with
  | .error _ => (GS_AKMODS_STATE_ERROR, true)
  | .ok p =>
    if stdin_fails p stdin_str then (GS_AKMODS_STATE_ERROR, true)
    else if cancelled_at_wait cancellable then (GS_AKMODS_STATE_ERROR, true)
    else
      match p.status with
      | .exited 1 => (GS_AKMODS_STATE_NOT_FOUND, false)
      | .exited 2 => (GS_AKMODS_STATE_NOT_ENROLLED, false)
      | .exited 3 => (GS_AKMODS_STATE_PENDING, false)
      | .exited 0 =>
        if cancelled_after_wait cancellable || has_text p.stderr_pipe then
          (GS_AKMODS_STATE_ERROR, true)
        else (GS_AKMODS_STATE_ENROLLED, false)
      | _ => (GS_AKMODS_STATE_ERROR, true)

/-- The process, if it started, has a stdout pipe (GLib creates one whenever
`G_SUBPROCESS_FLAGS_STDOUT_PIPE` is passed, as every call here does). -/
def has_stdout_pipe (spawn : Except GError GSubprocess) : Bool :=
  match spawn with
  | .ok p => p.stdout_pipe.isSome
  | .error _ => true

/-- A series of `gs_akmods_get_secureboot_state_sync` calls, one per world
answer: the static after the last call, the values returned in order, and
all processes started. -/
def secureboot_calls :
    GsSecurebootState → List (Except GError SpawnSyncOutput) →
      GsSecurebootState × List GsSecurebootState × List Invocation
  | s, [] => (s, [], [])
  | s, w :: ws =>
    let r := gs_akmods_get_secureboot_state_sync s w
    let rest := secureboot_calls r.secureboot_state ws
    (rest.1, r.state :: rest.2.1, r.spawned ++ rest.2.2)

/-- The stdin stream accepts the four writes of `gs_akmods_helper_import` and
the flush. -/
def accepts_password (stream : GOutputStream) : Prop :=
  stream.write_all 0 = none ∧ stream.write_all 1 = none ∧ stream.write_all 2 = none ∧
    stream.write_all 3 = none ∧ stream.flush = none

/-! ## Lemmas on the comparison -/

theorem toNat_sub_eq_zero_iff (a b : Char) : ((a.toNat : Int) - (b.toNat : Int) = 0) ↔ a = b := by
  constructor
  · intro h
    have h2 : a.toNat = b.toNat := by omega
    exact Char.ext (UInt32.ext (by simpa [Char.toNat, UInt32.toNat] using h2))
  · rintro rfl
    omega

theorem strncasecmp_zero_iff (lit : List Char) (hlit : ∀ c ∈ lit, c.toNat ≠ 0) (s : List Char) :
    g_ascii_strncasecmp s lit lit.length = 0 ↔ begins_ignoring_case s lit := by
  unfold begins_ignoring_case
  induction lit generalizing s with
  | nil => simp [g_ascii_strncasecmp]
  | cons c l ih =>
    have hc : c.toNat ≠ 0 := hlit c (List.mem_cons_self _ _)
    have hl : ∀ d ∈ l, d.toNat ≠ 0 := fun d hd => hlit d (List.mem_cons_of_mem _ hd)
    cases s with
    | nil =>
      simp [g_ascii_strncasecmp, deref]
      omega
    | cons a t =>
      simp only [List.length_cons, g_ascii_strncasecmp, List.take_succ_cons, List.map_cons,
        List.cons.injEq]
      by_cases hac : TOLOWER a = TOLOWER c
      · simp [hac, ih hl t]
      · simp [hac, toNat_sub_eq_zero_iff]

theorem begins_common (s a b : List Char) (ha : begins_ignoring_case s a)
    (hb : begins_ignoring_case s b) :
    (a.map TOLOWER).take (min a.length b.length) = (b.map TOLOWER).take (min a.length b.length) := by
  unfold begins_ignoring_case at ha hb
  rw [← ha, ← hb]
  simp only [← List.map_take, List.take_take]
  congr 2
  omega

theorem literals_have_no_nul :
    (∀ c ∈ NOT_FOUND_OUTPUT, c.toNat ≠ 0) ∧ (∀ c ∈ NOT_ENROLLED_OUTPUT, c.toNat ≠ 0) ∧
    (∀ c ∈ PENDING_OUTPUT, c.toNat ≠ 0) ∧ (∀ c ∈ ENROLLED_OUTPUT, c.toNat ≠ 0) ∧
    (∀ c ∈ NOT_FOUND_ERROR, c.toNat ≠ 0) := by
  decide

theorem check_result_not_found (out : List Char) (with_print : Bool)
    (h : begins_ignoring_case out NOT_FOUND_OUTPUT) :
    gs_akmods_helper_check_result (some out) with_print
      = some (GS_AKMODS_STATE_NOT_FOUND, []) := by
  have h1 := (strncasecmp_zero_iff _ literals_have_no_nul.1 out).2 h
  simp [gs_akmods_helper_check_result, h1]

theorem check_result_not_enrolled (out : List Char) (with_print : Bool)
    (h : begins_ignoring_case out NOT_ENROLLED_OUTPUT) :
    gs_akmods_helper_check_result (some out) with_print
      = some (GS_AKMODS_STATE_NOT_ENROLLED, []) := by
  have h2 := (strncasecmp_zero_iff _ literals_have_no_nul.2.1 out).2 h
  have n1 : ¬ g_ascii_strncasecmp out NOT_FOUND_OUTPUT NOT_FOUND_OUTPUT.length = 0 := by
    intro h0
    have := begins_common out _ _ h ((strncasecmp_zero_iff _ literals_have_no_nul.1 out).1 h0)
    revert this
    decide
  simp [gs_akmods_helper_check_result, h2, n1]

theorem check_result_pending (out : List Char) (with_print : Bool)
    (h : begins_ignoring_case out PENDING_OUTPUT) :
    gs_akmods_helper_check_result (some out) with_print
      = some (GS_AKMODS_STATE_PENDING, []) := by
  have h3 := (strncasecmp_zero_iff _ literals_have_no_nul.2.2.1 out).2 h
  have n1 : ¬ g_ascii_strncasecmp out NOT_FOUND_OUTPUT NOT_FOUND_OUTPUT.length = 0 := by
    intro h0
    have := begins_common out _ _ h ((strncasecmp_zero_iff _ literals_have_no_nul.1 out).1 h0)
    revert this
    decide
  have n2 : ¬ g_ascii_strncasecmp out NOT_ENROLLED_OUTPUT NOT_ENROLLED_OUTPUT.length = 0 := by
    intro h0
    have := begins_common out _ _ h ((strncasecmp_zero_iff _ literals_have_no_nul.2.1 out).1 h0)
    revert this
    decide
  simp [gs_akmods_helper_check_result, h3, n1, n2]

theorem check_result_enrolled (out : List Char) (with_print : Bool)
    (h : begins_ignoring_case out ENROLLED_OUTPUT) :
    gs_akmods_helper_check_result (some out) with_print
      = some (GS_AKMODS_STATE_ENROLLED, []) := by
  have h4 := (strncasecmp_zero_iff _ literals_have_no_nul.2.2.2.1 out).2 h
  have n1 : ¬ g_ascii_strncasecmp out NOT_FOUND_OUTPUT NOT_FOUND_OUTPUT.length = 0 := by
    intro h0
    have := begins_common out _ _ h ((strncasecmp_zero_iff _ literals_have_no_nul.1 out).1 h0)
    revert this
    decide
  have n2 : ¬ g_ascii_strncasecmp out NOT_ENROLLED_OUTPUT NOT_ENROLLED_OUTPUT.length = 0 := by
    intro h0
    have := begins_common out _ _ h ((strncasecmp_zero_iff _ literals_have_no_nul.2.1 out).1 h0)
    revert this
    decide
  have n3 : ¬ g_ascii_strncasecmp out PENDING_OUTPUT PENDING_OUTPUT.length = 0 := by
    intro h0
    have := begins_common out _ _ h ((strncasecmp_zero_iff _ literals_have_no_nul.2.2.1 out).1 h0)
    revert this
    decide
  simp [gs_akmods_helper_check_result, h4, n1, n2, n3]

theorem check_result_unmatched (out : List Char) (with_print : Bool)
    (h1 : ¬ begins_ignoring_case out NOT_FOUND_OUTPUT)
    (h2 : ¬ begins_ignoring_case out NOT_ENROLLED_OUTPUT)
    (h3 : ¬ begins_ignoring_case out PENDING_OUTPUT)
    (h4 : ¬ begins_ignoring_case out ENROLLED_OUTPUT) :
    ∃ printed, gs_akmods_helper_check_result (some out) with_print
      = some (GS_AKMODS_STATE_ERROR, printed) := by
  have n1 := mt (strncasecmp_zero_iff _ literals_have_no_nul.1 out).1 h1
  have n2 := mt (strncasecmp_zero_iff _ literals_have_no_nul.2.1 out).1 h2
  have n3 := mt (strncasecmp_zero_iff _ literals_have_no_nul.2.2.1 out).1 h3
  have n4 := mt (strncasecmp_zero_iff _ literals_have_no_nul.2.2.2.1 out).1 h4
  cases with_print <;> simp [gs_akmods_helper_check_result, n1, n2, n3, n4]

/-! ## C1 -/

/-- C1: `gs_akmods_helper_check_result` is a case-insensitive match on the
beginning of stdout. Whenever stdout begins, ignoring ASCII case, with the
"not found" literal the result is `NOT_FOUND`; with the "is not enrolled"
literal `NOT_ENROLLED`; with the "is already in the enrollment request"
literal `PENDING`; with the "is already enrolled" literal `ENROLLED`. Only
the first characters of stdout are constrained, so the text after them has
no influence; nothing is printed in these cases. -/
theorem check_result_classifies_by_beginning (out : List Char) (with_print : Bool) :
    (begins_ignoring_case out NOT_FOUND_OUTPUT →
      gs_akmods_helper_check_result (some out) with_print
        = some (GS_AKMODS_STATE_NOT_FOUND, [])) ∧
    (begins_ignoring_case out NOT_ENROLLED_OUTPUT →
      gs_akmods_helper_check_result (some out) with_print
        = some (GS_AKMODS_STATE_NOT_ENROLLED, [])) ∧
    (begins_ignoring_case out PENDING_OUTPUT →
      gs_akmods_helper_check_result (some out) with_print
        = some (GS_AKMODS_STATE_PENDING, [])) ∧
    (begins_ignoring_case out ENROLLED_OUTPUT →
      gs_akmods_helper_check_result (some out) with_print
        = some (GS_AKMODS_STATE_ENROLLED, [])) :=
  ⟨check_result_not_found out with_print, check_result_not_enrolled out with_print,
    check_result_pending out with_print, check_result_enrolled out with_print⟩

/-- Witness for C1: upper-case and trailing text on each of the four
literals. -/
theorem check_result_classifies_by_beginning_witness :
    (begins_ignoring_case "/ETC/PKI/akmods/certs/public_key.der NOT FOUND\nand more".toList
        NOT_FOUND_OUTPUT ∧
      gs_akmods_helper_check_result
        (some "/ETC/PKI/akmods/certs/public_key.der NOT FOUND\nand more".toList) true
        = some (GS_AKMODS_STATE_NOT_FOUND, [])) ∧
    (begins_ignoring_case "/etc/pki/akmods/certs/public_key.der is Not Enrolled\n\n".toList
        NOT_ENROLLED_OUTPUT ∧
      gs_akmods_helper_check_result
        (some "/etc/pki/akmods/certs/public_key.der is Not Enrolled\n\n".toList) true
        = some (GS_AKMODS_STATE_NOT_ENROLLED, [])) ∧
    (begins_ignoring_case
        "/etc/pki/akmods/certs/public_key.der is already in the enrollment request\nx".toList
        PENDING_OUTPUT ∧
      gs_akmods_helper_check_result
        (some "/etc/pki/akmods/certs/public_key.der is already in the enrollment request\nx".toList)
        false
        = some (GS_AKMODS_STATE_PENDING, [])) ∧
    (begins_ignoring_case "/etc/pki/akmods/certs/public_key.der IS ALREADY enrolled\n".toList
        ENROLLED_OUTPUT ∧
      gs_akmods_helper_check_result
        (some "/etc/pki/akmods/certs/public_key.der IS ALREADY enrolled\n".toList) false
        = some (GS_AKMODS_STATE_ENROLLED, [])) :=
  ⟨⟨by decide, (check_result_classifies_by_beginning _ true).1 (by decide)⟩,
    ⟨by decide, (check_result_classifies_by_beginning _ true).2.1 (by decide)⟩,
    ⟨by decide, (check_result_classifies_by_beginning _ false).2.2.1 (by decide)⟩,
    ⟨by decide, (check_result_classifies_by_beginning _ false).2.2.2 (by decide)⟩⟩

/-! ## C2 -/

/-- C2 as stated fails: the verification tool exits with status 2, prints
the "is not enrolled" line on stdout and nothing on stderr, and
`gs_akmods_helper_test` returns `ERROR`, not `NOT_ENROLLED`. -/
theorem helper_test_exit_2_is_error :
    Option.map HelperRun.state
      (gs_akmods_helper_test false true
        (.ok ⟨none, some NOT_ENROLLED_OUTPUT, some [], .exited 2,
          "Child process exited with code 2".toList⟩))
      = some GS_AKMODS_STATE_ERROR := by
  decide

/-- C2, amended: when the verification tool exits with status 1, its stdout
is the "is not enrolled" line and its stderr has no text,
`gs_akmods_helper_test` returns `NOT_ENROLLED` and prints nothing; with the
same streams and any exit status of 2 or more it returns `ERROR`. -/
theorem helper_test_exit_1_not_enrolled (with_print : Bool)
    (stdin_pipe : Option GOutputStream) (stderr_pipe : Option (List Char))
    (wait_message : List Char) (h : has_text stderr_pipe = false) :
    gs_akmods_helper_test with_print true
        (.ok ⟨stdin_pipe, some NOT_ENROLLED_OUTPUT, stderr_pipe, .exited 1, wait_message⟩)
      = some ⟨GS_AKMODS_STATE_NOT_ENROLLED, [],
          [⟨["mokutil", "--test-key", GS_AKMODS_KEY_FILENAME], []⟩]⟩ ∧
    ∀ c : Nat,
      Option.map HelperRun.state
        (gs_akmods_helper_test with_print true
          (.ok ⟨stdin_pipe, some NOT_ENROLLED_OUTPUT, stderr_pipe, .exited (c + 2),
            wait_message⟩))
        = some GS_AKMODS_STATE_ERROR := by
  have hne : has_text (some NOT_ENROLLED_OUTPUT) = true := by decide
  have hcr := check_result_not_enrolled NOT_ENROLLED_OUTPUT with_print (by decide)
  constructor
  · simp [gs_akmods_helper_test, gs_akmods_helper_read_stream, g_subprocess_wait_check,
      g_spawn_check_wait_status, hne, h, g_error_matches, hcr]
  · intro c
    have hc : ¬ ((c : Int) + 1 + 1 = 1) := by omega
    cases stderr_pipe <;>
      simp [gs_akmods_helper_test, gs_akmods_helper_read_stream, g_subprocess_wait_check,
        g_spawn_check_wait_status, hne, g_error_matches, hc]

/-- Witness for the amended C2: exit status 1 with an empty stderr. -/
theorem helper_test_exit_1_not_enrolled_witness :
    has_text (some []) = false ∧
    gs_akmods_helper_test true true
        (.ok ⟨none, some NOT_ENROLLED_OUTPUT, some [], .exited 1, "exit 1".toList⟩)
      = some ⟨GS_AKMODS_STATE_NOT_ENROLLED, [],
          [⟨["mokutil", "--test-key", GS_AKMODS_KEY_FILENAME], []⟩]⟩ :=
  ⟨rfl, (helper_test_exit_1_not_enrolled true none (some []) "exit 1".toList rfl).1⟩

/-! ## C3 -/

/-- C3: the verification tool exits with status zero, stderr has no text and
stdout begins with none of the four literals (the empty stdout included):
`gs_akmods_helper_test` returns `ERROR`. -/
theorem helper_test_unmatched_is_error (with_print : Bool)
    (stdin_pipe : Option GOutputStream) (out : List Char) (stderr_pipe : Option (List Char))
    (wait_message : List Char) (hs : has_text stderr_pipe = false)
    (h1 : ¬ begins_ignoring_case out NOT_FOUND_OUTPUT)
    (h2 : ¬ begins_ignoring_case out NOT_ENROLLED_OUTPUT)
    (h3 : ¬ begins_ignoring_case out PENDING_OUTPUT)
    (h4 : ¬ begins_ignoring_case out ENROLLED_OUTPUT) :
    Option.map HelperRun.state
      (gs_akmods_helper_test with_print true
        (.ok ⟨stdin_pipe, some out, stderr_pipe, .exited 0, wait_message⟩))
      = some GS_AKMODS_STATE_ERROR := by
  obtain ⟨printed, hp⟩ := check_result_unmatched out with_print h1 h2 h3 h4
  simp [gs_akmods_helper_test, gs_akmods_helper_read_stream, g_subprocess_wait_check,
    g_spawn_check_wait_status, hs]
  cases stderr_pipe <;> simp_all

/-- Witness for C3: an empty stdout and an unrelated line. -/
theorem helper_test_unmatched_is_error_witness :
    (has_text (some []) = false ∧
      ¬ begins_ignoring_case [] NOT_FOUND_OUTPUT ∧ ¬ begins_ignoring_case [] NOT_ENROLLED_OUTPUT ∧
      ¬ begins_ignoring_case [] PENDING_OUTPUT ∧ ¬ begins_ignoring_case [] ENROLLED_OUTPUT ∧
      Option.map HelperRun.state
        (gs_akmods_helper_test true true (.ok ⟨none, some [], some [], .exited 0, []⟩))
        = some GS_AKMODS_STATE_ERROR) :=
  ⟨rfl, by decide, by decide, by decide, by decide,
    helper_test_unmatched_is_error true none [] (some []) [] rfl
      (by decide) (by decide) (by decide) (by decide)⟩

/-! ## C4 -/

theorem finish_with_error_of_not_exit (e : GError) (spawned : List Invocation)
    (h : e.domain ≠ G_SPAWN_EXIT_ERROR) :
    finish_with_error e spawned = ⟨GS_AKMODS_STATE_ERROR, some e, spawned⟩ := by
  simp [finish_with_error, h]

theorem finish_with_error_of_exit (code : Int) (message : List Char)
    (spawned : List Invocation) :
    finish_with_error ⟨G_SPAWN_EXIT_ERROR, code, message⟩ spawned
      = match state_of_exit_code code with
        | some state => ⟨state, none, spawned⟩
        | none => ⟨GS_AKMODS_STATE_ERROR, some ⟨G_SPAWN_EXIT_ERROR, code, message⟩, spawned⟩ := by
  simp [finish_with_error]

theorem state_of_exit_code_none (code : Int) (h : 4 ≤ code) :
    state_of_exit_code code = none := by
  unfold state_of_exit_code
  rw [if_neg (by omega), if_neg (by omega), if_neg (by omega), if_neg (by omega)]

/-- The message `gs_akmods_execute_sync` gives to the error of a failed wait. -/
theorem execute_sync_wait_failed (args : List String) (stdin_str : Option (List Char))
    (cancellable : Option GCancellable) (p : GSubprocess) (input : List Char) (e : GError)
    (hf : feed_stdin p stdin_str = (none, input))
    (hw : g_subprocess_wait_check p cancellable = some e) :
    gs_akmods_execute_sync args stdin_str cancellable (.ok p)
      = finish_with_error
          ⟨e.domain, e.code,
            if !has_text p.stdout_pipe && has_text p.stderr_pipe then text_or_empty p.stderr_pipe
            else composed_message e.message p.stdout_pipe p.stderr_pipe⟩
          [⟨args, input⟩] := by
  have h1 : gs_akmods_read_stream p.stdout_pipe = p.stdout_pipe := by
    cases p.stdout_pipe <;> rfl
  have h2 : gs_akmods_read_stream p.stderr_pipe = p.stderr_pipe := by
    cases p.stderr_pipe <;> rfl
  simp only [gs_akmods_execute_sync, hf, hw, gs_akmods_read_subprocess_pipes, h1, h2]
  split <;> rfl

theorem execute_sync_wait_ok (args : List String) (stdin_str : Option (List Char))
    (cancellable : Option GCancellable) (p : GSubprocess) (input : List Char)
    (hf : feed_stdin p stdin_str = (none, input))
    (hw : g_subprocess_wait_check p cancellable = none) :
    gs_akmods_execute_sync args stdin_str cancellable (.ok p)
      = if cancelled_after_wait cancellable then
          (match cancellable with
            | some c =>
              ⟨GS_AKMODS_STATE_ERROR, some ⟨G_IO_ERROR, G_IO_ERROR_CANCELLED, c.message⟩,
                [⟨args, input⟩]⟩
            | none => ⟨GS_AKMODS_STATE_ERROR, none, [⟨args, input⟩]⟩)
        else if has_text p.stderr_pipe then
          ⟨GS_AKMODS_STATE_ERROR,
            some ⟨G_IO_ERROR, G_IO_ERROR_FAILED, text_or_empty p.stderr_pipe⟩, [⟨args, input⟩]⟩
        else ⟨GS_AKMODS_STATE_ENROLLED, none, [⟨args, input⟩]⟩ := by
  have h2 : gs_akmods_read_stream p.stderr_pipe = p.stderr_pipe := by
    cases p.stderr_pipe <;> rfl
  simp only [gs_akmods_execute_sync, hf, hw, gs_akmods_read_subprocess_pipes, h2]
  rcases cancellable with _ | ⟨at_wait, after_wait, msg⟩
  · simp only [g_cancellable_set_error_if_cancelled, cancelled_after_wait]
    split <;> simp_all [finish_with_error]
  · cases after_wait
    · simp only [g_cancellable_set_error_if_cancelled, cancelled_after_wait]
      split <;> simp_all [finish_with_error]
    · simp [g_cancellable_set_error_if_cancelled, cancelled_after_wait, finish_with_error]

theorem execute_sync_feed_failed (args : List String) (stdin_str : Option (List Char))
    (cancellable : Option GCancellable) (p : GSubprocess) (input : List Char) (e : GError)
    (hf : feed_stdin p stdin_str = (some e, input)) :
    gs_akmods_execute_sync args stdin_str cancellable (.ok p)
      = ⟨GS_AKMODS_STATE_ERROR, some e, [⟨args, input⟩]⟩ := by
  simp only [gs_akmods_execute_sync, hf]

theorem wait_check_cases (p : GSubprocess) (cancellable : Option GCancellable) :
    g_subprocess_wait_check p cancellable
      = if cancelled_at_wait cancellable then
          (match cancellable with
            | some c => some ⟨G_IO_ERROR, G_IO_ERROR_CANCELLED, c.message⟩
            | none => none)
        else g_spawn_check_wait_status p.status p.wait_message := by
  rcases cancellable with _ | ⟨at_wait, after_wait, msg⟩
  · simp [g_subprocess_wait_check, cancelled_at_wait]
  · cases at_wait <;> simp [g_subprocess_wait_check, cancelled_at_wait]

/-- The code's stdin step fails exactly when the outside world makes the
feeding fail. -/
theorem feed_stdin_fails (p : GSubprocess) (stdin_str : Option (List Char)) :
    (feed_stdin p stdin_str).1.isSome = stdin_fails p stdin_str := by
  unfold feed_stdin stdin_fails
  rcases stdin_str with _ | str
  · rfl
  · rcases p.stdin_pipe with _ | stream
    · rfl
    · cases h0 : stream.write_all 0 <;> cases h1 : stream.flush <;>
        cases h2 : stream.close <;> simp [h0, h1, h2]

theorem execute_sync_table (args : List String)
    (stdin_str : Option (List Char)) (cancellable : Option GCancellable)
    (spawn : Except GError GSubprocess) :
    ((gs_akmods_execute_sync args stdin_str cancellable spawn).state,
      (gs_akmods_execute_sync args stdin_str cancellable spawn).error.isSome)
      = runner_outcome_table stdin_str cancellable spawn := by
  cases spawn with
  | error e => simp [gs_akmods_execute_sync, runner_outcome_table]
  | ok p =>
    have hsf := (feed_stdin_fails p stdin_str).symm
    rcases hf : feed_stdin p stdin_str with ⟨fe, input⟩
    rw [hf] at hsf
    cases fe with
    | some e =>
      rw [execute_sync_feed_failed args stdin_str cancellable p input e hf]
      simp [runner_outcome_table, hsf, hf]
    | none =>
      have hw := wait_check_cases p cancellable
      by_cases hc : cancelled_at_wait cancellable = true
      · rcases cancellable with _ | ⟨at_wait, after_wait, msg⟩
        · simp [cancelled_at_wait] at hc
        · simp only [hc, if_true] at hw
          rw [execute_sync_wait_failed args stdin_str _ p input _ hf hw]
          simp [runner_outcome_table, hsf, hf, hc, finish_with_error]
      · simp only [hc, if_false] at hw
        rcases hst : p.status with c | sig
        · rcases c with _ | _ | _ | _ | c
          · simp only [hst, g_spawn_check_wait_status] at hw
            rw [execute_sync_wait_ok args stdin_str _ p input hf hw]
            rcases cancellable with _ | ⟨at_wait, after_wait, msg⟩
            · by_cases ht : has_text p.stderr_pipe = true <;>
                simp [runner_outcome_table, hsf, hf, hst, cancelled_at_wait, cancelled_after_wait, ht]
            · by_cases ht : has_text p.stderr_pipe = true <;> cases after_wait <;>
                simp_all [runner_outcome_table, cancelled_at_wait, cancelled_after_wait]
          · simp only [hst, g_spawn_check_wait_status] at hw
            rw [execute_sync_wait_failed args stdin_str _ p input _ hf hw]
            simp [runner_outcome_table, hsf, hf, hst, hc, finish_with_error, state_of_exit_code]
          · simp only [hst, g_spawn_check_wait_status] at hw
            rw [execute_sync_wait_failed args stdin_str _ p input _ hf hw]
            simp [runner_outcome_table, hsf, hf, hst, hc, finish_with_error, state_of_exit_code]
          · simp only [hst, g_spawn_check_wait_status] at hw
            rw [execute_sync_wait_failed args stdin_str _ p input _ hf hw]
            simp [runner_outcome_table, hsf, hf, hst, hc, finish_with_error, state_of_exit_code]
          · simp only [hst, g_spawn_check_wait_status] at hw
            rw [execute_sync_wait_failed args stdin_str _ p input _ hf hw]
            have hn : state_of_exit_code ((c + 3 + 1 : Nat) : Int) = none :=
              state_of_exit_code_none _ (by omega)
            push_cast at hn
            simp [runner_outcome_table, hsf, hf, hst, hc, finish_with_error, hn]
        · simp only [hst, g_spawn_check_wait_status] at hw
          rw [execute_sync_wait_failed args stdin_str _ p input _ hf hw]
          simp [runner_outcome_table, hsf, hf, hst, hc, finish_with_error]

/-- C4: the state returned by `gs_akmods_execute_sync`, and whether it sets
an error, is the outcome table of the specification: exit codes 1, 2, 3 give
the state with that ordinal and no error whatever stdout and stderr hold;
exit zero with no text on stderr and no cancellation gives `ENROLLED` and no
error; every other outcome gives `ERROR` with an error set. The second part
spells out the first row: for a process that was started, whose stdin took
the input, and that was waited for without cancellation and exits with `c`
in 1..3, the returned state has the integer value `c` and no error is set.
The third part spells out the stdin row: when there is input to feed and the
started process has no stdin pipe, or the write, the flush or the close
fails, the result is `ERROR` with an error set, whatever the exit code. -/
theorem execute_sync_follows_outcome_table (args : List String)
    (stdin_str : Option (List Char)) (cancellable : Option GCancellable)
    (spawn : Except GError GSubprocess) :
    ((gs_akmods_execute_sync args stdin_str cancellable spawn).state,
      (gs_akmods_execute_sync args stdin_str cancellable spawn).error.isSome)
      = runner_outcome_table stdin_str cancellable spawn ∧
    (∀ (p : GSubprocess) (c : Nat), spawn = .ok p → stdin_fails p stdin_str = false →
      cancelled_at_wait cancellable = false → p.status = .exited c → 1 ≤ c → c ≤ 3 →
      (gs_akmods_execute_sync args stdin_str cancellable spawn).state.toInt = (c : Int) ∧
      (gs_akmods_execute_sync args stdin_str cancellable spawn).error = none) ∧
    (∀ (p : GSubprocess) (str : List Char), spawn = .ok p → stdin_str = some str →
      (p.stdin_pipe = none ∨
        ∃ stream, p.stdin_pipe = some stream ∧
          (stream.write_all 0 ≠ none ∨ stream.flush ≠ none ∨ stream.close ≠ none)) →
      (gs_akmods_execute_sync args stdin_str cancellable spawn).state = GS_AKMODS_STATE_ERROR ∧
      (gs_akmods_execute_sync args stdin_str cancellable spawn).error.isSome = true) := by
  have ht := execute_sync_table args stdin_str cancellable spawn
  refine ⟨ht, ?_, ?_⟩
  · intro p c hsp hfeed hcw hst h1 h3
    subst hsp
    have hc : c = 1 ∨ c = 2 ∨ c = 3 := by omega
    rcases hc with rfl | rfl | rfl
    all_goals
      simp only [runner_outcome_table, hfeed, hcw, hst, Bool.false_eq_true,
        if_false, Prod.mk.injEq] at ht
      obtain ⟨hs, he⟩ := ht
      rw [hs]
      exact ⟨rfl, Option.not_isSome_iff_eq_none.1 (by simp [he])⟩
  · intro p str hsp hstr hworld
    subst hsp
    subst hstr
    have hfail : stdin_fails p (some str) = true := by
      rcases hworld with hpipe | ⟨stream, hpipe, hw | hf | hcl⟩
      · simp [stdin_fails, hpipe]
      · have : (stream.write_all 0).isSome = true := Option.isSome_iff_ne_none.2 hw
        simp [stdin_fails, hpipe, this]
      · have : stream.flush.isSome = true := Option.isSome_iff_ne_none.2 hf
        simp [stdin_fails, hpipe, this]
      · have : stream.close.isSome = true := Option.isSome_iff_ne_none.2 hcl
        simp [stdin_fails, hpipe, this]
    simp only [runner_outcome_table, hfail, if_true, Prod.mk.injEq] at ht
    exact ht

/-- Witness for C4: the helper started without stdin, nothing cancelled,
exit code 3 and noise on both streams; and a helper whose stdin refuses the
write while it exits with code 3. -/
theorem execute_sync_follows_outcome_table_witness :
    stdin_fails ⟨none, some "noise".toList, some "more noise".toList, .exited 3, []⟩ none
      = false ∧
    cancelled_at_wait none = false ∧
    (gs_akmods_execute_sync ["pkexec", "helper", "--test"] none none
      (.ok ⟨none, some "noise".toList, some "more noise".toList, .exited 3, []⟩)).state.toInt
        = 3 ∧
    (gs_akmods_execute_sync ["pkexec", "helper", "--test"] none none
      (.ok ⟨none, some "noise".toList, some "more noise".toList, .exited 3, []⟩)).error
        = none ∧
    (gs_akmods_execute_sync ["pkexec", "helper", "--enroll"] (some "secret".toList) none
      (.ok ⟨some ⟨fun _ => some ⟨G_IO_ERROR, 0, "Broken pipe".toList⟩, none, none⟩,
        some [], some [], .exited 3, []⟩)).state = GS_AKMODS_STATE_ERROR ∧
    (gs_akmods_execute_sync ["pkexec", "helper", "--enroll"] (some "secret".toList) none
      (.ok ⟨some ⟨fun _ => some ⟨G_IO_ERROR, 0, "Broken pipe".toList⟩, none, none⟩,
        some [], some [], .exited 3, []⟩)).error.isSome = true := by
  have h1 := (execute_sync_follows_outcome_table ["pkexec", "helper", "--test"] none none
    (.ok ⟨none, some "noise".toList, some "more noise".toList, .exited 3, []⟩)).2.1
    _ 3 rfl rfl rfl rfl (by decide) (by decide)
  have h2 := (execute_sync_follows_outcome_table ["pkexec", "helper", "--enroll"]
    (some "secret".toList) none
    (.ok ⟨some ⟨fun _ => some ⟨G_IO_ERROR, 0, "Broken pipe".toList⟩, none, none⟩,
      some [], some [], .exited 3, []⟩)).2.2
    _ "secret".toList rfl rfl
    (Or.inr ⟨⟨fun _ => some ⟨G_IO_ERROR, 0, "Broken pipe".toList⟩, none, none⟩, rfl,
      Or.inl (by simp)⟩)
  exact ⟨rfl, rfl, h1.1, h1.2, h2.1, h2.2⟩

/-! ## C5 -/

theorem has_text_iff (v : Option (List Char)) : has_text v = true ↔ text_or_empty v ≠ [] := by
  rcases v with _ | _ | ⟨c, t⟩ <;> simp [has_text, text_or_empty]

theorem finish_with_error_message (e err : GError) (spawned : List Invocation)
    (h : (finish_with_error e spawned).error = some err) : err = e := by
  unfold finish_with_error at h
  split at h
  · split at h
    · simp at h
    · simpa using h.symm
  · simpa using h.symm

/-- C5: when the wait fails and `gs_akmods_execute_sync` reports an error,
its message is the stderr text alone if stdout is empty or absent and stderr
is not empty; otherwise it is the wait error's message, then `"\nstdout: "`
and stdout if stdout is not empty, then `"\nstderr: "` and stderr if stderr is
not empty. -/
theorem execute_sync_failed_wait_message (args : List String)
    (stdin_str : Option (List Char)) (cancellable : Option GCancellable) (p : GSubprocess)
    (input : List Char) (e err : GError)
    (hf : feed_stdin p stdin_str = (none, input))
    (hw : g_subprocess_wait_check p cancellable = some e)
    (hr : (gs_akmods_execute_sync args stdin_str cancellable (.ok p)).error = some err) :
    err.message =
      if text_or_empty p.stdout_pipe = [] ∧ text_or_empty p.stderr_pipe ≠ [] then
        text_or_empty p.stderr_pipe
      else
        e.message
          ++ (if text_or_empty p.stdout_pipe ≠ [] then
                "\nstdout: ".toList ++ text_or_empty p.stdout_pipe else [])
          ++ (if text_or_empty p.stderr_pipe ≠ [] then
                "\nstderr: ".toList ++ text_or_empty p.stderr_pipe else []) := by
  rw [execute_sync_wait_failed args stdin_str cancellable p input e hf hw] at hr
  rw [finish_with_error_message _ _ _ hr]
  by_cases ho : has_text p.stdout_pipe = true <;> by_cases he : has_text p.stderr_pipe = true
  all_goals
    have ho2 := ho
    have he2 := he
    rw [has_text_iff] at ho2 he2
    simp only [ne_eq, not_not] at ho2 he2
    simp [ho, he, ho2, he2, composed_message]

/-- Witness for C5: exit code 4 with both streams filled, and exit code 4
with stderr only. -/
theorem execute_sync_failed_wait_message_witness :
    (gs_akmods_execute_sync ["tool"] none none
        (.ok ⟨none, some "out".toList, some "err".toList, .exited 4, "exit 4".toList⟩)).error
      = some ⟨G_SPAWN_EXIT_ERROR, 4, "exit 4\nstdout: out\nstderr: err".toList⟩ ∧
    (⟨G_SPAWN_EXIT_ERROR, 4, "exit 4\nstdout: out\nstderr: err".toList⟩ : GError).message
      = "exit 4\nstdout: out\nstderr: err".toList ∧
    (gs_akmods_execute_sync ["tool"] none none
        (.ok ⟨none, some [], some "err".toList, .exited 4, "exit 4".toList⟩)).error
      = some ⟨G_SPAWN_EXIT_ERROR, 4, "err".toList⟩ :=
  ⟨by decide,
    execute_sync_failed_wait_message ["tool"] none none
      ⟨none, some "out".toList, some "err".toList, .exited 4, "exit 4".toList⟩ []
      ⟨G_SPAWN_EXIT_ERROR, 4, "exit 4".toList⟩ _ rfl rfl (by decide),
    by decide⟩

/-! ## C6 -/

theorem finish_with_error_cases (e : GError) (spawned : List Invocation) :
    ((finish_with_error e spawned).error = none ∧ e.domain = G_SPAWN_EXIT_ERROR ∧
        state_of_exit_code e.code = some (finish_with_error e spawned).state) ∨
      finish_with_error e spawned = ⟨GS_AKMODS_STATE_ERROR, some e, spawned⟩ := by
  unfold finish_with_error
  by_cases hd : e.domain = G_SPAWN_EXIT_ERROR
  · rcases hs : state_of_exit_code e.code with _ | st
    · right; simp [hd]
    · left; simp [hd]
  · right; simp [hd]

/-- C6: (1) when the elevated helper exits with status 126,
`gs_akmods_enroll_sync` returns `ERROR` with an error of domain
`G_SPAWN_EXIT_ERROR` and code 126, whatever stdout and stderr hold, and the
dialog callback shows no error dialog for it; (2) for every failed wait of
`gs_akmods_execute_sync`, either the wait error is an exit error whose code
is a key state, which is returned without error, or the call returns `ERROR`
with an error that has the domain and code of the wait error; (3) a wait that
finds the call cancelled gives `ERROR` with a `G_IO_ERROR_CANCELLED` error,
for which the dialog callback does nothing. -/
theorem enroll_sync_keeps_wait_error (libexecdir : String) (password : List Char)
    (cancellable : Option GCancellable) (p : GSubprocess) (input : List Char)
    (hf : feed_stdin p (some password) = (none, input)) :
    (cancelled_at_wait cancellable = false → p.status = .exited 126 →
      ∃ err, gs_akmods_enroll_sync libexecdir (some password) cancellable (.ok p)
          = some ⟨GS_AKMODS_STATE_ERROR, some err,
              [⟨["pkexec", libexecdir ++ "/gnome-software-akmods-helper", "--enroll"], input⟩]⟩ ∧
        err.domain = G_SPAWN_EXIT_ERROR ∧ err.code = 126 ∧
        gs_akmods_dialog_prepare_reboot_cb (some err) = .nothing) ∧
    (∀ (args : List String) (e : GError), g_subprocess_wait_check p cancellable = some e →
      ((gs_akmods_execute_sync args (some password) cancellable (.ok p)).error = none ∧
          e.domain = G_SPAWN_EXIT_ERROR ∧
          state_of_exit_code e.code
            = some (gs_akmods_execute_sync args (some password) cancellable (.ok p)).state) ∨
        ((gs_akmods_execute_sync args (some password) cancellable (.ok p)).state
            = GS_AKMODS_STATE_ERROR ∧
          ∃ err, (gs_akmods_execute_sync args (some password) cancellable (.ok p)).error
              = some err ∧ err.domain = e.domain ∧ err.code = e.code)) ∧
    (cancelled_at_wait cancellable = true →
      ∃ err, gs_akmods_enroll_sync libexecdir (some password) cancellable (.ok p)
          = some ⟨GS_AKMODS_STATE_ERROR, some err,
              [⟨["pkexec", libexecdir ++ "/gnome-software-akmods-helper", "--enroll"], input⟩]⟩ ∧
        err.domain = G_IO_ERROR ∧ err.code = G_IO_ERROR_CANCELLED ∧
        gs_akmods_dialog_prepare_reboot_cb (some err) = .nothing) := by
  refine ⟨?_, ?_, ?_⟩
  · intro hc hst
    have hw : g_subprocess_wait_check p cancellable
        = some ⟨G_SPAWN_EXIT_ERROR, 126, p.wait_message⟩ := by
      rw [wait_check_cases, hc, hst]
      rfl
    refine ⟨⟨G_SPAWN_EXIT_ERROR, 126,
      if !has_text p.stdout_pipe && has_text p.stderr_pipe then text_or_empty p.stderr_pipe
      else composed_message p.wait_message p.stdout_pipe p.stderr_pipe⟩, ?_, rfl, rfl, ?_⟩
    · simp only [gs_akmods_enroll_sync]
      rw [execute_sync_wait_failed _ _ cancellable p input _ hf hw]
      rw [finish_with_error_of_exit, state_of_exit_code_none 126 (by decide)]
    · simp [gs_akmods_dialog_prepare_reboot_cb, g_error_matches]
  · intro args e hw
    rw [execute_sync_wait_failed args _ cancellable p input e hf hw]
    rcases finish_with_error_cases
        ⟨e.domain, e.code,
          if !has_text p.stdout_pipe && has_text p.stderr_pipe then text_or_empty p.stderr_pipe
          else composed_message e.message p.stdout_pipe p.stderr_pipe⟩
        [⟨args, input⟩] with h | h
    · exact Or.inl h
    · right
      rw [h]
      exact ⟨rfl, _, rfl, rfl, rfl⟩
  · intro hc
    rcases cancellable with _ | ⟨at_wait, after_wait, msg⟩
    · simp [cancelled_at_wait] at hc
    · simp only [cancelled_at_wait] at hc
      subst hc
      have hw : g_subprocess_wait_check p (some ⟨true, after_wait, msg⟩)
          = some ⟨G_IO_ERROR, G_IO_ERROR_CANCELLED, msg⟩ := by
        simp [g_subprocess_wait_check]
      refine ⟨⟨G_IO_ERROR, G_IO_ERROR_CANCELLED,
        if !has_text p.stdout_pipe && has_text p.stderr_pipe then text_or_empty p.stderr_pipe
        else composed_message msg p.stdout_pipe p.stderr_pipe⟩, ?_, rfl, rfl, ?_⟩
      · simp only [gs_akmods_enroll_sync]
        rw [execute_sync_wait_failed _ _ _ p input _ hf hw]
        rw [finish_with_error_of_not_exit _ _ (by simp)]
      · simp [gs_akmods_dialog_prepare_reboot_cb, g_error_matches]

/-- Witness for C6: the authentication prompt is dismissed, `pkexec` exits
with 126 and writes its complaint to stderr. -/
theorem enroll_sync_keeps_wait_error_witness :
    feed_stdin
        ⟨some ⟨fun _ => none, none, none⟩, some [], some "Request dismissed\n".toList,
          .exited 126, "Child process exited with code 126".toList⟩
        (some "secret".toList)
      = (none, "secret".toList) ∧
    cancelled_at_wait none = false ∧
    ∃ err, gs_akmods_enroll_sync "/usr/libexec" (some "secret".toList) none
        (.ok ⟨some ⟨fun _ => none, none, none⟩, some [], some "Request dismissed\n".toList,
          .exited 126, "Child process exited with code 126".toList⟩)
        = some ⟨GS_AKMODS_STATE_ERROR, some err,
            [⟨["pkexec", "/usr/libexec" ++ "/gnome-software-akmods-helper", "--enroll"],
              "secret".toList⟩]⟩ ∧
      err.domain = G_SPAWN_EXIT_ERROR ∧ err.code = 126 ∧
      gs_akmods_dialog_prepare_reboot_cb (some err) = .nothing :=
  ⟨rfl, rfl,
    (enroll_sync_keeps_wait_error "/usr/libexec" "secret".toList none
      ⟨some ⟨fun _ => none, none, none⟩, some [], some "Request dismissed\n".toList,
        .exited 126, "Child process exited with code 126".toList⟩
      "secret".toList rfl).1 rfl rfl⟩

/-! ## C7 -/

/-- C7: with the key directory present, a call of
`gs_akmods_get_key_state_sync` made less than 5 seconds after the cached
probe time starts no process, leaves the cached state and timestamp as they
were and returns the cached state; and the cached state is the state the
previous call returned, so two calls less than 5 seconds apart return the
same state. -/
theorem key_state_cache_hit (libexecdir : String) (cache : KeyStateCache) (now : Int)
    (cancellable : Option GCancellable) (spawn : Except GError GSubprocess) (now_after : Int) :
    (now - cache.last_state_time < 5 * G_USEC_PER_SEC →
      (gs_akmods_get_key_state_sync libexecdir cache true now cancellable spawn now_after).spawned
          = [] ∧
      (gs_akmods_get_key_state_sync libexecdir cache true now cancellable spawn now_after).cache
          = cache ∧
      (gs_akmods_get_key_state_sync libexecdir cache true now cancellable spawn now_after).state
          = cache.last_state) ∧
    (∀ (now' : Int) (cancellable' : Option GCancellable)
        (spawn' : Except GError GSubprocess) (now_after' : Int),
      now' - (gs_akmods_get_key_state_sync libexecdir cache true now cancellable spawn
          now_after).cache.last_state_time < 5 * G_USEC_PER_SEC →
      (gs_akmods_get_key_state_sync libexecdir
          (gs_akmods_get_key_state_sync libexecdir cache true now cancellable spawn
            now_after).cache
          true now' cancellable' spawn' now_after').spawned = [] ∧
      (gs_akmods_get_key_state_sync libexecdir
          (gs_akmods_get_key_state_sync libexecdir cache true now cancellable spawn
            now_after).cache
          true now' cancellable' spawn' now_after').state
        = (gs_akmods_get_key_state_sync libexecdir cache true now cancellable spawn
            now_after).state) := by
  have hit : ∀ (c : KeyStateCache) (t : Int) (cc : Option GCancellable)
      (sp : Except GError GSubprocess) (ta : Int), t - c.last_state_time < 5 * G_USEC_PER_SEC →
      gs_akmods_get_key_state_sync libexecdir c true t cc sp ta = ⟨c.last_state, none, [], c⟩ := by
    intro c t cc sp ta h
    have h2 : ¬ (t > c.last_state_time + G_USEC_PER_SEC * 5) := by
      unfold G_USEC_PER_SEC at h ⊢
      omega
    simp [gs_akmods_get_key_state_sync, h2]
  constructor
  · intro h
    rw [hit cache now cancellable spawn now_after h]
    exact ⟨rfl, rfl, rfl⟩
  · intro now' cancellable' spawn' now_after' h
    rw [hit _ now' cancellable' spawn' now_after' h]
    refine ⟨rfl, ?_⟩
    by_cases hp : now > cache.last_state_time + G_USEC_PER_SEC * 5
    · simp [gs_akmods_get_key_state_sync, hp]
    · simp [gs_akmods_get_key_state_sync, hp]

/-- Witness for C7: a probe finished at second 100 found the key pending; a
call at second 104.999999 is answered from the cache. -/
theorem key_state_cache_hit_witness :
    (104999999 : Int) - (⟨GS_AKMODS_STATE_PENDING, 100000000⟩ : KeyStateCache).last_state_time
        < 5 * G_USEC_PER_SEC ∧
    (gs_akmods_get_key_state_sync "/usr/libexec" ⟨GS_AKMODS_STATE_PENDING, 100000000⟩ true
        104999999 none (.error ⟨G_SPAWN_ERROR, 8, []⟩) 105000000).spawned = [] ∧
    (gs_akmods_get_key_state_sync "/usr/libexec" ⟨GS_AKMODS_STATE_PENDING, 100000000⟩ true
        104999999 none (.error ⟨G_SPAWN_ERROR, 8, []⟩) 105000000).cache
      = ⟨GS_AKMODS_STATE_PENDING, 100000000⟩ ∧
    (gs_akmods_get_key_state_sync "/usr/libexec" ⟨GS_AKMODS_STATE_PENDING, 100000000⟩ true
        104999999 none (.error ⟨G_SPAWN_ERROR, 8, []⟩) 105000000).state
      = GS_AKMODS_STATE_PENDING :=
  ⟨by decide,
    (key_state_cache_hit "/usr/libexec" ⟨GS_AKMODS_STATE_PENDING, 100000000⟩ 104999999 none
      (.error ⟨G_SPAWN_ERROR, 8, []⟩) 105000000).1 (by decide)⟩

/-! ## C8 -/

/-- C8 as stated fails at the boundary: the cached probe time is second 10,
the call is made at second 15 exactly, so `now - lastProbeTime >= 5 seconds`,
and no process is started, the cache stays as it was and the cached state is
returned. -/
theorem key_state_exactly_five_seconds_is_fresh :
    (15000000 : Int) - (⟨GS_AKMODS_STATE_NOT_FOUND, 10000000⟩ : KeyStateCache).last_state_time
        ≥ 5 * G_USEC_PER_SEC ∧
    gs_akmods_get_key_state_sync "/usr/libexec" ⟨GS_AKMODS_STATE_NOT_FOUND, 10000000⟩ true
        15000000 none
        (.ok ⟨none, some [], some [], .exited 3, "Child process exited with code 3".toList⟩)
        15000001
      = ⟨GS_AKMODS_STATE_NOT_FOUND, none, [], ⟨GS_AKMODS_STATE_NOT_FOUND, 10000000⟩⟩ := by
  decide

theorem execute_sync_spawned (args : List String) (stdin_str : Option (List Char))
    (cancellable : Option GCancellable) (spawn : Except GError GSubprocess) :
    (gs_akmods_execute_sync args stdin_str cancellable spawn).spawned.map Invocation.argv
      = [args] := by
  cases spawn with
  | error e => simp [gs_akmods_execute_sync]
  | ok p =>
    unfold gs_akmods_execute_sync finish_with_error
    simp only
    repeat' split
    all_goals rfl

/-- C8, amended: with the key directory present, every call of
`gs_akmods_get_key_state_sync` made more than 5 seconds after the cached
probe time (the first call of the process included, the clock being past
second 5) starts exactly one process, the helper with `--test`, returns what
`gs_akmods_execute_sync` returns for it, and stores that state together with
the time read after the probe, whatever the outcome; a spawn failure returns
`ERROR` with the spawn error and stores `ERROR` and the new time. -/
theorem key_state_reprobe (libexecdir : String) (cache : KeyStateCache) (now : Int)
    (cancellable : Option GCancellable) (spawn : Except GError GSubprocess) (now_after : Int)
    (h : now - cache.last_state_time > 5 * G_USEC_PER_SEC) :
    (gs_akmods_get_key_state_sync libexecdir cache true now cancellable spawn
        now_after).spawned.map Invocation.argv
      = [["pkexec", libexecdir ++ "/gnome-software-akmods-helper", "--test"]] ∧
    (gs_akmods_get_key_state_sync libexecdir cache true now cancellable spawn now_after).state
      = (gs_akmods_execute_sync
          ["pkexec", libexecdir ++ "/gnome-software-akmods-helper", "--test"]
          none cancellable spawn).state ∧
    (gs_akmods_get_key_state_sync libexecdir cache true now cancellable spawn now_after).error
      = (gs_akmods_execute_sync
          ["pkexec", libexecdir ++ "/gnome-software-akmods-helper", "--test"]
          none cancellable spawn).error ∧
    (gs_akmods_get_key_state_sync libexecdir cache true now cancellable spawn now_after).cache
      = ⟨(gs_akmods_get_key_state_sync libexecdir cache true now cancellable spawn
            now_after).state, now_after⟩ ∧
    (∀ e, spawn = .error e →
      gs_akmods_get_key_state_sync libexecdir cache true now cancellable spawn now_after
        = ⟨GS_AKMODS_STATE_ERROR, some e,
            [⟨["pkexec", libexecdir ++ "/gnome-software-akmods-helper", "--test"], []⟩],
            ⟨GS_AKMODS_STATE_ERROR, now_after⟩⟩) := by
  have hp : now > cache.last_state_time + G_USEC_PER_SEC * 5 := by
    unfold G_USEC_PER_SEC at h ⊢
    omega
  refine ⟨?_, ?_, ?_, ?_, ?_⟩
  · simp only [gs_akmods_get_key_state_sync, hp, Bool.not_true, Bool.false_eq_true, if_false,
      if_true]
    exact execute_sync_spawned _ _ _ _
  · simp [gs_akmods_get_key_state_sync, hp]
  · simp [gs_akmods_get_key_state_sync, hp]
  · simp [gs_akmods_get_key_state_sync, hp]
  · rintro e rfl
    simp [gs_akmods_get_key_state_sync, hp, gs_akmods_execute_sync]

/-- Witness for the amended C8: the first call of the process, the helper
cannot be started. -/
theorem key_state_reprobe_witness :
    (1700000000000000 : Int) - KeyStateCache.initial.last_state_time > 5 * G_USEC_PER_SEC ∧
    gs_akmods_get_key_state_sync "/usr/libexec" KeyStateCache.initial true 1700000000000000 none
        (.error ⟨G_SPAWN_ERROR, 8, "No such file or directory".toList⟩) 1700000000000020
      = ⟨GS_AKMODS_STATE_ERROR, some ⟨G_SPAWN_ERROR, 8, "No such file or directory".toList⟩,
          [⟨["pkexec", "/usr/libexec" ++ "/gnome-software-akmods-helper", "--test"], []⟩],
          ⟨GS_AKMODS_STATE_ERROR, 1700000000000020⟩⟩ :=
  ⟨by decide,
    (key_state_reprobe "/usr/libexec" KeyStateCache.initial 1700000000000000 none
      (.error ⟨G_SPAWN_ERROR, 8, "No such file or directory".toList⟩) 1700000000000020
      (by decide)).2.2.2.2 _ rfl⟩

/-! ## C9 -/

/-- C9: when the key directory is not a directory,
`gs_akmods_get_key_state_sync` returns `ERROR` (not `NOT_FOUND`) with the
`G_IO_ERROR_NOT_DIRECTORY` error "Akmods key directory not found.", starts
no process and leaves the cached state and timestamp as they were, whatever
the age of the cache. -/
theorem key_state_without_directory (libexecdir : String) (cache : KeyStateCache) (now : Int)
    (cancellable : Option GCancellable) (spawn : Except GError GSubprocess) (now_after : Int) :
    gs_akmods_get_key_state_sync libexecdir cache false now cancellable spawn now_after
      = ⟨GS_AKMODS_STATE_ERROR,
          some ⟨G_IO_ERROR, G_IO_ERROR_NOT_DIRECTORY, "Akmods key directory not found.".toList⟩,
          [], cache⟩ := by
  simp [gs_akmods_get_key_state_sync]

/-! ## C10 -/

theorem helper_test_spawned (with_print is_dir : Bool) (spawn : Except GError GSubprocess)
    (r : HelperRun) (h : gs_akmods_helper_test with_print is_dir spawn = some r) :
    ∀ inv ∈ r.spawned, inv.argv = ["mokutil", "--test-key", GS_AKMODS_KEY_FILENAME] := by
  unfold gs_akmods_helper_test at h
  simp only at h
  repeat' split at h
  all_goals first
    | (injection h with h; subst h; simp)
    | simp at h

theorem helper_test_returns (with_print is_dir : Bool) (spawn : Except GError GSubprocess)
    (h : has_stdout_pipe spawn = true) :
    (gs_akmods_helper_test with_print is_dir spawn).isSome = true := by
  cases spawn with
  | error e => cases is_dir <;> simp [gs_akmods_helper_test]
  | ok p =>
    simp only [has_stdout_pipe] at h
    obtain ⟨out, hout⟩ := Option.isSome_iff_exists.1 h
    have hcr : ∀ wp, (gs_akmods_helper_check_result (some out) wp).isSome = true := by
      intro wp
      unfold gs_akmods_helper_check_result
      simp only
      repeat' split
      all_goals rfl
    obtain ⟨⟨st, pr⟩, hv⟩ := Option.isSome_iff_exists.1 (hcr with_print)
    unfold gs_akmods_helper_test
    simp only [hout, gs_akmods_helper_read_stream, hv]
    repeat' split
    all_goals rfl

theorem helper_generate_spawned (spawn : Except GError GSubprocess) :
    ∀ inv ∈ (gs_akmods_helper_generate spawn).spawned, inv.argv = ["kmodgenca", "-a"] := by
  unfold gs_akmods_helper_generate
  simp only
  repeat' split
  all_goals simp

theorem helper_import_empty (spawn : Except GError GSubprocess) :
    gs_akmods_helper_import [] spawn
      = some ⟨GS_AKMODS_STATE_ERROR, "Password cannot be empty.\n".toList, []⟩ := by
  simp [gs_akmods_helper_import]

theorem helper_enroll_empty_stdin_spawned (w : HelperWorld) (hs : w.stdin = []) (r : HelperRun)
    (h : gs_akmods_helper_enroll w = some r) :
    ∀ inv ∈ r.spawned, inv.argv = ["mokutil", "--test-key", GS_AKMODS_KEY_FILENAME] ∨
      inv.argv = ["kmodgenca", "-a"] := by
  unfold gs_akmods_helper_enroll at h
  rw [hs, helper_import_empty] at h
  rcases h1 : gs_akmods_helper_test false w.is_dir w.test_key with _ | probe
  · simp [h1] at h
  · have hp := helper_test_spawned _ _ _ _ h1
    simp only [h1] at h
    split at h
    · rcases h2 : gs_akmods_helper_test true w.is_dir_again w.test_key_again with _ | again
      · simp [h2] at h
      · have ha := helper_test_spawned _ _ _ _ h2
        simp only [h2, Option.some.injEq] at h
        subst h
        intro inv hinv
        simp only [HelperRun.andThen, List.mem_append] at hinv
        rcases hinv with hi | hi
        · exact Or.inl (hp inv hi)
        · exact Or.inl (ha inv hi)
    · split at h
      · simp only [Option.some.injEq] at h
        subst h
        intro inv hinv
        exact Or.inl (hp inv hinv)
      · have hg := helper_generate_spawned w.kmodgenca
        have hgen : ∀ inv ∈ (if probe.state = GS_AKMODS_STATE_NOT_FOUND then
              probe.andThen (gs_akmods_helper_generate w.kmodgenca) else probe).spawned,
            inv.argv = ["mokutil", "--test-key", GS_AKMODS_KEY_FILENAME] ∨
              inv.argv = ["kmodgenca", "-a"] := by
          intro inv hinv
          split at hinv
          · simp only [HelperRun.andThen, List.mem_append] at hinv
            rcases hinv with hi | hi
            · exact Or.inl (hp inv hi)
            · exact Or.inr (hg inv hi)
          · exact Or.inl (hp inv hinv)
        generalize (if probe.state = GS_AKMODS_STATE_NOT_FOUND then
            probe.andThen (gs_akmods_helper_generate w.kmodgenca) else probe) = generated
          at h hgen
        split at h
        · simp only [Option.some.injEq] at h
          subst h
          intro inv hinv
          simp only [HelperRun.andThen, List.append_nil] at hinv
          exact hgen inv hinv
        · simp only [Option.some.injEq] at h
          subst h
          exact hgen

theorem helper_enroll_empty_stdin_returns (w : HelperWorld) (hs : w.stdin = [])
    (h1 : has_stdout_pipe w.test_key = true) (h2 : has_stdout_pipe w.test_key_again = true) :
    (gs_akmods_helper_enroll w).isSome = true := by
  obtain ⟨probe, hp⟩ := Option.isSome_iff_exists.1 (helper_test_returns false w.is_dir _ h1)
  obtain ⟨again, ha⟩ := Option.isSome_iff_exists.1 (helper_test_returns true w.is_dir_again _ h2)
  unfold gs_akmods_helper_enroll
  rw [hs, helper_import_empty]
  simp only [hp, ha]
  repeat' split
  all_goals rfl

/-- C10 as stated fails: `gs_akmods_enroll_sync` with an empty password
starts the elevated helper, and the helper, run with an empty standard input
on a system without a key, starts the verification tool and the generation
tool before it rejects the password. -/
theorem enroll_with_empty_password_spawns :
    Option.map RunnerResult.spawned
      (gs_akmods_enroll_sync "/usr/libexec" (some []) none
        (.ok ⟨some ⟨fun _ => none, none, none⟩, some [],
          some "Password cannot be empty.\n".toList, .exited 4,
          "Child process exited with code 4".toList⟩))
      = some [⟨["pkexec", "/usr/libexec/gnome-software-akmods-helper", "--enroll"], []⟩] ∧
    gs_akmods_helper_enroll
        ⟨true, .ok ⟨none, some NOT_FOUND_OUTPUT, some [], .exited 0, []⟩,
          true, .ok ⟨none, some NOT_FOUND_OUTPUT, some [], .exited 0, []⟩,
          .ok ⟨none, some [], some "....+++++".toList, .exited 0, []⟩,
          [],
          .ok ⟨some ⟨fun _ => none, none, none⟩, some [], some [], .exited 0, []⟩⟩
      = some ⟨GS_AKMODS_STATE_ERROR, "Password cannot be empty.\n".toList,
          [⟨["mokutil", "--test-key", "/etc/pki/akmods/certs/public_key.der"], []⟩,
            ⟨["kmodgenca", "-a"], []⟩]⟩ := by
  constructor
  · decide
  · decide

/-- C10, amended: an empty password never reaches the submission tool.
(1) `gs_akmods_helper_import` with an empty standard input prints "Password
cannot be empty.", returns `ERROR` and starts no process; (2) a run of
`gs_akmods_helper_enroll` with an empty standard input returns (its test
processes having a stdout pipe) and starts nothing but `mokutil --test-key`
and `kmodgenca -a`, never `mokutil --import`; (3) the dialog keeps the apply
button insensitive for an empty password, so that it does not call
`gs_akmods_enroll_sync` with one. -/
theorem empty_password_never_reaches_import (w : HelperWorld) (hs : w.stdin = []) :
    (∀ spawn, gs_akmods_helper_import [] spawn
      = some ⟨GS_AKMODS_STATE_ERROR, "Password cannot be empty.\n".toList, []⟩) ∧
    (has_stdout_pipe w.test_key = true → has_stdout_pipe w.test_key_again = true →
      (gs_akmods_helper_enroll w).isSome = true) ∧
    (∀ r, gs_akmods_helper_enroll w = some r →
      ∀ inv ∈ r.spawned, inv.argv ≠ ["mokutil", "--import", GS_AKMODS_KEY_FILENAME]) ∧
    (gs_akmods_dialog_password_changed_cb []).apply_button_sensitive = false := by
  refine ⟨helper_import_empty, helper_enroll_empty_stdin_returns w hs, ?_, rfl⟩
  intro r hr inv hinv
  rcases helper_enroll_empty_stdin_spawned w hs r hr inv hinv with h | h
  · rw [h]
    decide
  · rw [h]
    decide

/-- Witness for the amended C10: the key exists but is not enrolled, the
helper gets an empty standard input. -/
theorem empty_password_never_reaches_import_witness :
    (⟨true, .ok ⟨none, some NOT_ENROLLED_OUTPUT, some [], .exited 1, []⟩,
        true, .error ⟨G_SPAWN_ERROR, 8, []⟩, .error ⟨G_SPAWN_ERROR, 8, []⟩, [],
        .error ⟨G_SPAWN_ERROR, 8, []⟩⟩ : HelperWorld).stdin = [] ∧
    (gs_akmods_helper_enroll
        ⟨true, .ok ⟨none, some NOT_ENROLLED_OUTPUT, some [], .exited 1, []⟩,
          true, .error ⟨G_SPAWN_ERROR, 8, []⟩, .error ⟨G_SPAWN_ERROR, 8, []⟩, [],
          .error ⟨G_SPAWN_ERROR, 8, []⟩⟩).isSome = true :=
  ⟨rfl,
    (empty_password_never_reaches_import
      ⟨true, .ok ⟨none, some NOT_ENROLLED_OUTPUT, some [], .exited 1, []⟩,
        true, .error ⟨G_SPAWN_ERROR, 8, []⟩, .error ⟨G_SPAWN_ERROR, 8, []⟩, [],
        .error ⟨G_SPAWN_ERROR, 8, []⟩⟩ rfl).2.1 rfl rfl⟩

/-! ## C11 -/

theorem helper_test_spawned_one (with_print is_dir : Bool) (spawn : Except GError GSubprocess)
    (r : HelperRun) (h : gs_akmods_helper_test with_print is_dir spawn = some r)
    (hs : r.state ≠ GS_AKMODS_STATE_ERROR) :
    r.spawned = [⟨["mokutil", "--test-key", GS_AKMODS_KEY_FILENAME], []⟩] := by
  unfold gs_akmods_helper_test at h
  simp only at h
  repeat' split at h
  all_goals first
    | (injection h with h; subst h; first | rfl | exact absurd rfl hs)
    | simp at h

theorem helper_enroll_of_settled (w : HelperWorld) (probe : HelperRun)
    (hp : gs_akmods_helper_test false w.is_dir w.test_key = some probe)
    (hs : probe.state = GS_AKMODS_STATE_ENROLLED ∨ probe.state = GS_AKMODS_STATE_PENDING) :
    gs_akmods_helper_enroll w = some probe := by
  have hne : probe.state ≠ GS_AKMODS_STATE_ERROR := by
    rcases hs with h | h <;> rw [h] <;> decide
  simp [gs_akmods_helper_enroll, hp, hne, hs]

theorem helper_enroll_of_error (w : HelperWorld) (probe : HelperRun)
    (hp : gs_akmods_helper_test false w.is_dir w.test_key = some probe)
    (hs : probe.state = GS_AKMODS_STATE_ERROR) :
    gs_akmods_helper_enroll w
      = Option.map probe.andThen
          (gs_akmods_helper_test true w.is_dir_again w.test_key_again) := by
  simp only [gs_akmods_helper_enroll, hp, hs, if_true]
  cases gs_akmods_helper_test true w.is_dir_again w.test_key_again <;> rfl

theorem helper_enroll_of_not_enrolled (w : HelperWorld) (probe : HelperRun)
    (hp : gs_akmods_helper_test false w.is_dir w.test_key = some probe)
    (hs : probe.state = GS_AKMODS_STATE_NOT_ENROLLED) :
    gs_akmods_helper_enroll w
      = Option.map probe.andThen (gs_akmods_helper_import w.stdin w.import_key) := by
  simp only [gs_akmods_helper_enroll, hp, hs]
  simp only [reduceCtorEq, if_false, false_or, if_true]
  cases gs_akmods_helper_import w.stdin w.import_key <;> simp [hs]

theorem helper_enroll_of_not_found (w : HelperWorld) (probe : HelperRun)
    (hp : gs_akmods_helper_test false w.is_dir w.test_key = some probe)
    (hs : probe.state = GS_AKMODS_STATE_NOT_FOUND) :
    gs_akmods_helper_enroll w
      = if (gs_akmods_helper_generate w.kmodgenca).state = GS_AKMODS_STATE_NOT_ENROLLED then
          Option.map (probe.andThen (gs_akmods_helper_generate w.kmodgenca)).andThen
            (gs_akmods_helper_import w.stdin w.import_key)
        else some (probe.andThen (gs_akmods_helper_generate w.kmodgenca)) := by
  have hst : (probe.andThen (gs_akmods_helper_generate w.kmodgenca)).state
      = (gs_akmods_helper_generate w.kmodgenca).state := rfl
  simp only [gs_akmods_helper_enroll, hp, hs]
  simp only [reduceCtorEq, if_false, false_or, if_true, hst]
  by_cases hg : (gs_akmods_helper_generate w.kmodgenca).state = GS_AKMODS_STATE_NOT_ENROLLED
  · simp only [hg, if_true]
    cases gs_akmods_helper_import w.stdin w.import_key <;> rfl
  · simp only [hg, if_false]

/-- C11: when the first probe of `gs_akmods_helper_enroll` classifies the key
as `ENROLLED` or `PENDING`, the function returns what the probe returned: that
state, with exactly one process started, `mokutil --test-key`; no other tool
is started, and the result is the same whatever the standard input, the
generation tool and the submission tool would have answered. -/
theorem helper_enroll_settled_key (w : HelperWorld) (probe : HelperRun)
    (hp : gs_akmods_helper_test false w.is_dir w.test_key = some probe)
    (hs : probe.state = GS_AKMODS_STATE_ENROLLED ∨ probe.state = GS_AKMODS_STATE_PENDING) :
    gs_akmods_helper_enroll w = some probe ∧
    probe.spawned = [⟨["mokutil", "--test-key", GS_AKMODS_KEY_FILENAME], []⟩] ∧
    ∀ (is_dir_again : Bool) (test_key_again kmodgenca : Except GError GSubprocess)
      (stdin : List Char) (import_key : Except GError GSubprocess),
      gs_akmods_helper_enroll
          ⟨w.is_dir, w.test_key, is_dir_again, test_key_again, kmodgenca, stdin, import_key⟩
        = some probe := by
  have hne : probe.state ≠ GS_AKMODS_STATE_ERROR := by
    rcases hs with h | h <;> rw [h] <;> decide
  refine ⟨helper_enroll_of_settled w probe hp hs, helper_test_spawned_one _ _ _ _ hp hne, ?_⟩
  intro d t k i m
  exact helper_enroll_of_settled ⟨w.is_dir, w.test_key, d, t, k, i, m⟩ probe hp hs

/-- Witness for C11: the probe answers "is already enrolled". -/
theorem helper_enroll_settled_key_witness :
    gs_akmods_helper_test false true
        (.ok ⟨none, some ENROLLED_OUTPUT, some [], .exited 0, []⟩)
      = some ⟨GS_AKMODS_STATE_ENROLLED, [],
          [⟨["mokutil", "--test-key", GS_AKMODS_KEY_FILENAME], []⟩]⟩ ∧
    gs_akmods_helper_enroll
        ⟨true, .ok ⟨none, some ENROLLED_OUTPUT, some [], .exited 0, []⟩,
          true, .error ⟨G_SPAWN_ERROR, 8, []⟩, .error ⟨G_SPAWN_ERROR, 8, []⟩,
          "secret".toList, .error ⟨G_SPAWN_ERROR, 8, []⟩⟩
      = some ⟨GS_AKMODS_STATE_ENROLLED, [],
          [⟨["mokutil", "--test-key", GS_AKMODS_KEY_FILENAME], []⟩]⟩ :=
  ⟨by decide,
    (helper_enroll_settled_key
      ⟨true, .ok ⟨none, some ENROLLED_OUTPUT, some [], .exited 0, []⟩,
        true, .error ⟨G_SPAWN_ERROR, 8, []⟩, .error ⟨G_SPAWN_ERROR, 8, []⟩,
        "secret".toList, .error ⟨G_SPAWN_ERROR, 8, []⟩⟩
      ⟨GS_AKMODS_STATE_ENROLLED, [],
        [⟨["mokutil", "--test-key", GS_AKMODS_KEY_FILENAME], []⟩]⟩
      (by decide) (Or.inl rfl)).1⟩

/-! ## C12 -/

theorem helper_generate_ok (g : GSubprocess) (hst : g.status = .exited 0) :
    gs_akmods_helper_generate (.ok g)
      = ⟨GS_AKMODS_STATE_NOT_ENROLLED, [], [⟨["kmodgenca", "-a"], []⟩]⟩ := by
  simp [gs_akmods_helper_generate, g_subprocess_wait_check, g_spawn_check_wait_status, hst]

theorem write_chunks_accepted (stream : GOutputStream) (password : List Char)
    (h : accepts_password stream) :
    write_chunks stream 0 [password, ['\n'], password, ['\n']]
      = (none, password ++ '\n' :: (password ++ ['\n'])) := by
  obtain ⟨h0, h1, h2, h3, _⟩ := h
  simp [write_chunks, h0, h1, h2, h3]

theorem helper_import_ok (password : List Char) (m : GSubprocess) (stream : GOutputStream)
    (hpw : password ≠ []) (hpipe : m.stdin_pipe = some stream) (hacc : accepts_password stream)
    (hst : m.status = .exited 0) (herr : has_text m.stderr_pipe = false) :
    gs_akmods_helper_import password (.ok m)
      = some ⟨GS_AKMODS_STATE_PENDING, [],
          [⟨["mokutil", "--import", GS_AKMODS_KEY_FILENAME],
            password ++ '\n' :: (password ++ ['\n'])⟩]⟩ := by
  have hlen : ¬ password.length = 0 := by
    intro h0
    exact hpw (List.length_eq_zero.1 h0)
  have hread : gs_akmods_helper_read_stream m.stderr_pipe = m.stderr_pipe := by
    cases m.stderr_pipe <;> rfl
  simp [gs_akmods_helper_import, hlen, hpipe, write_chunks_accepted stream password hacc,
    hacc.2.2.2.2, g_subprocess_wait_check, g_spawn_check_wait_status, hst, hread, herr]

/-- C12: with a non-empty password on the standard input and a submission
tool that starts, takes the four writes and the flush, exits zero and leaves
no text on stderr: (1) from a probe result `NOT_FOUND`, with a generation
tool that starts and exits zero, `gs_akmods_helper_enroll` starts after the
probe exactly `kmodgenca -a` and then `mokutil --import`, and returns
`PENDING`; (2) from a probe result `NOT_ENROLLED` it starts after the probe
exactly `mokutil --import` and returns `PENDING`. -/
theorem helper_enroll_reaches_pending (w : HelperWorld) (probe : HelperRun)
    (g m : GSubprocess) (stream : GOutputStream)
    (hp : gs_akmods_helper_test false w.is_dir w.test_key = some probe)
    (hpw : w.stdin ≠ []) (hm : w.import_key = .ok m) (hpipe : m.stdin_pipe = some stream)
    (hacc : accepts_password stream) (hmst : m.status = .exited 0)
    (hmerr : has_text m.stderr_pipe = false) :
    (probe.state = GS_AKMODS_STATE_NOT_FOUND → w.kmodgenca = .ok g → g.status = .exited 0 →
      gs_akmods_helper_enroll w
        = some ⟨GS_AKMODS_STATE_PENDING, probe.printed,
            [⟨["mokutil", "--test-key", GS_AKMODS_KEY_FILENAME], []⟩,
              ⟨["kmodgenca", "-a"], []⟩,
              ⟨["mokutil", "--import", GS_AKMODS_KEY_FILENAME],
                w.stdin ++ '\n' :: (w.stdin ++ ['\n'])⟩]⟩) ∧
    (probe.state = GS_AKMODS_STATE_NOT_ENROLLED →
      gs_akmods_helper_enroll w
        = some ⟨GS_AKMODS_STATE_PENDING, probe.printed,
            [⟨["mokutil", "--test-key", GS_AKMODS_KEY_FILENAME], []⟩,
              ⟨["mokutil", "--import", GS_AKMODS_KEY_FILENAME],
                w.stdin ++ '\n' :: (w.stdin ++ ['\n'])⟩]⟩) := by
  have himp := helper_import_ok w.stdin m stream hpw hpipe hacc hmst hmerr
  constructor
  · intro hs hg hgst
    have hsp := helper_test_spawned_one _ _ _ _ hp (by rw [hs]; decide)
    rw [helper_enroll_of_not_found w probe hp hs, hg, helper_generate_ok g hgst, hm, himp]
    simp [HelperRun.andThen, hsp]
  · intro hs
    have hsp := helper_test_spawned_one _ _ _ _ hp (by rw [hs]; decide)
    rw [helper_enroll_of_not_enrolled w probe hp hs, hm, himp]
    simp [HelperRun.andThen, hsp]

/-- Witness for C12: no key yet, password `secret`, both tools succeed. -/
theorem helper_enroll_reaches_pending_witness :
    gs_akmods_helper_enroll
        ⟨true, .ok ⟨none, some NOT_FOUND_OUTPUT, some [], .exited 1, []⟩,
          true, .error ⟨G_SPAWN_ERROR, 8, []⟩,
          .ok ⟨none, some [], some ".....+++++".toList, .exited 0, []⟩,
          "secret".toList,
          .ok ⟨some ⟨fun _ => none, none, none⟩, some "input password: ".toList, some [],
            .exited 0, []⟩⟩
      = some ⟨GS_AKMODS_STATE_PENDING, [],
          [⟨["mokutil", "--test-key", GS_AKMODS_KEY_FILENAME], []⟩,
            ⟨["kmodgenca", "-a"], []⟩,
            ⟨["mokutil", "--import", GS_AKMODS_KEY_FILENAME],
              "secret".toList ++ '\n' :: ("secret".toList ++ ['\n'])⟩]⟩ :=
  (helper_enroll_reaches_pending
    ⟨true, .ok ⟨none, some NOT_FOUND_OUTPUT, some [], .exited 1, []⟩,
      true, .error ⟨G_SPAWN_ERROR, 8, []⟩,
      .ok ⟨none, some [], some ".....+++++".toList, .exited 0, []⟩,
      "secret".toList,
      .ok ⟨some ⟨fun _ => none, none, none⟩, some "input password: ".toList, some [],
        .exited 0, []⟩⟩
    ⟨GS_AKMODS_STATE_NOT_FOUND, [], [⟨["mokutil", "--test-key", GS_AKMODS_KEY_FILENAME], []⟩]⟩
    ⟨none, some [], some ".....+++++".toList, .exited 0, []⟩
    ⟨some ⟨fun _ => none, none, none⟩, some "input password: ".toList, some [], .exited 0, []⟩
    ⟨fun _ => none, none, none⟩
    (by decide) (by decide) rfl rfl ⟨rfl, rfl, rfl, rfl, rfl⟩ rfl rfl).1 rfl rfl rfl

/-! ## C13 -/

theorem helper_generate_spawned_eq (spawn : Except GError GSubprocess) :
    (gs_akmods_helper_generate spawn).spawned = [⟨["kmodgenca", "-a"], []⟩] := by
  unfold gs_akmods_helper_generate
  simp only
  repeat' split
  all_goals rfl

/-- C13: (1) when the first probe of `gs_akmods_helper_enroll` yields `ERROR`,
the function returns what the repeated, printing probe gives (it returns
whenever that process has a stdout pipe) and every process it starts is
`mokutil --test-key`: neither `kmodgenca` nor `mokutil --import` is started;
(2) when the probe yields `NOT_FOUND` and key generation yields `ERROR`, the
function returns `ERROR` having started the probe and `kmodgenca -a` only. -/
theorem helper_enroll_stops_on_error (w : HelperWorld) (probe : HelperRun)
    (hp : gs_akmods_helper_test false w.is_dir w.test_key = some probe) :
    (probe.state = GS_AKMODS_STATE_ERROR →
      gs_akmods_helper_enroll w
        = Option.map probe.andThen
            (gs_akmods_helper_test true w.is_dir_again w.test_key_again) ∧
      (has_stdout_pipe w.test_key_again = true → (gs_akmods_helper_enroll w).isSome = true) ∧
      ∀ r, gs_akmods_helper_enroll w = some r → ∀ inv ∈ r.spawned,
        inv.argv = ["mokutil", "--test-key", GS_AKMODS_KEY_FILENAME] ∧
        inv.argv ≠ ["kmodgenca", "-a"] ∧
        inv.argv ≠ ["mokutil", "--import", GS_AKMODS_KEY_FILENAME]) ∧
    (probe.state = GS_AKMODS_STATE_NOT_FOUND →
      (gs_akmods_helper_generate w.kmodgenca).state = GS_AKMODS_STATE_ERROR →
      ∃ printed, gs_akmods_helper_enroll w
        = some ⟨GS_AKMODS_STATE_ERROR, printed,
            [⟨["mokutil", "--test-key", GS_AKMODS_KEY_FILENAME], []⟩,
              ⟨["kmodgenca", "-a"], []⟩]⟩) := by
  constructor
  · intro hs
    have he := helper_enroll_of_error w probe hp hs
    refine ⟨he, ?_, ?_⟩
    · intro hpipe
      obtain ⟨again, ha⟩ :=
        Option.isSome_iff_exists.1 (helper_test_returns true w.is_dir_again _ hpipe)
      rw [he, ha]
      rfl
    · intro r hr inv hinv
      rw [he] at hr
      rcases ha : gs_akmods_helper_test true w.is_dir_again w.test_key_again with _ | again
      · simp [ha] at hr
      · simp only [ha, Option.map_some', Option.some.injEq] at hr
        subst hr
        have h1 := helper_test_spawned _ _ _ _ hp
        have h2 := helper_test_spawned _ _ _ _ ha
        simp only [HelperRun.andThen, List.mem_append] at hinv
        have harg : inv.argv = ["mokutil", "--test-key", GS_AKMODS_KEY_FILENAME] := by
          rcases hinv with hi | hi
          · exact h1 inv hi
          · exact h2 inv hi
        rw [harg]
        exact ⟨rfl, by decide, by decide⟩
  · intro hs hg
    have hsp := helper_test_spawned_one _ _ _ _ hp (by rw [hs]; decide)
    have hgs := helper_generate_spawned_eq w.kmodgenca
    rw [helper_enroll_of_not_found w probe hp hs]
    refine ⟨probe.printed ++ (gs_akmods_helper_generate w.kmodgenca).printed, ?_⟩
    simp [hg, HelperRun.andThen, hsp, hgs]

/-- Witness for C13: the probe cannot be started, and: no key and
`kmodgenca` cannot be started. -/
theorem helper_enroll_stops_on_error_witness :
    gs_akmods_helper_enroll
        ⟨true, .error ⟨G_SPAWN_ERROR, 8, "no mokutil".toList⟩,
          true, .error ⟨G_SPAWN_ERROR, 8, "no mokutil".toList⟩,
          .error ⟨G_SPAWN_ERROR, 8, []⟩, "secret".toList, .error ⟨G_SPAWN_ERROR, 8, []⟩⟩
      = Option.map
          (HelperRun.andThen ⟨GS_AKMODS_STATE_ERROR, [],
            [⟨["mokutil", "--test-key", GS_AKMODS_KEY_FILENAME], []⟩]⟩)
          (gs_akmods_helper_test true true (.error ⟨G_SPAWN_ERROR, 8, "no mokutil".toList⟩)) ∧
    ∃ printed, gs_akmods_helper_enroll
        ⟨true, .ok ⟨none, some NOT_FOUND_OUTPUT, some [], .exited 1, []⟩,
          true, .error ⟨G_SPAWN_ERROR, 8, []⟩,
          .error ⟨G_SPAWN_ERROR, 8, "no kmodgenca".toList⟩, "secret".toList,
          .error ⟨G_SPAWN_ERROR, 8, []⟩⟩
      = some ⟨GS_AKMODS_STATE_ERROR, printed,
          [⟨["mokutil", "--test-key", GS_AKMODS_KEY_FILENAME], []⟩,
            ⟨["kmodgenca", "-a"], []⟩]⟩ :=
  ⟨((helper_enroll_stops_on_error
      ⟨true, .error ⟨G_SPAWN_ERROR, 8, "no mokutil".toList⟩,
        true, .error ⟨G_SPAWN_ERROR, 8, "no mokutil".toList⟩,
        .error ⟨G_SPAWN_ERROR, 8, []⟩, "secret".toList, .error ⟨G_SPAWN_ERROR, 8, []⟩⟩
      ⟨GS_AKMODS_STATE_ERROR, [], [⟨["mokutil", "--test-key", GS_AKMODS_KEY_FILENAME], []⟩]⟩
      (by decide)).1 rfl).1,
    (helper_enroll_stops_on_error
      ⟨true, .ok ⟨none, some NOT_FOUND_OUTPUT, some [], .exited 1, []⟩,
        true, .error ⟨G_SPAWN_ERROR, 8, []⟩,
        .error ⟨G_SPAWN_ERROR, 8, "no kmodgenca".toList⟩, "secret".toList,
        .error ⟨G_SPAWN_ERROR, 8, []⟩⟩
      ⟨GS_AKMODS_STATE_NOT_FOUND, [], [⟨["mokutil", "--test-key", GS_AKMODS_KEY_FILENAME], []⟩]⟩
      (by decide)).2 rfl rfl⟩

/-! ## C14 -/

theorem helper_generate_state (spawn : Except GError GSubprocess) :
    (gs_akmods_helper_generate spawn).state = GS_AKMODS_STATE_ERROR ∨
      (gs_akmods_helper_generate spawn).state = GS_AKMODS_STATE_NOT_ENROLLED := by
  unfold gs_akmods_helper_generate
  simp only
  repeat' split
  all_goals first
    | exact Or.inl rfl
    | exact Or.inr rfl

theorem helper_import_state (stdin : List Char) (spawn : Except GError GSubprocess)
    (r : HelperRun) (h : gs_akmods_helper_import stdin spawn = some r) :
    r.state = GS_AKMODS_STATE_ERROR ∨ r.state = GS_AKMODS_STATE_PENDING := by
  unfold gs_akmods_helper_import at h
  simp only at h
  repeat' split at h
  all_goals first
    | (injection h with h; subst h; first | exact Or.inl rfl | exact Or.inr rfl)
    | simp at h

/-- Unless the first probe yields `ERROR`, `gs_akmods_helper_enroll` returns
`ENROLLED`, `PENDING` or `ERROR`. -/
theorem helper_enroll_terminal_unless_reprobe (w : HelperWorld) (probe r : HelperRun)
    (hp : gs_akmods_helper_test false w.is_dir w.test_key = some probe)
    (hne : probe.state ≠ GS_AKMODS_STATE_ERROR) (hr : gs_akmods_helper_enroll w = some r) :
    r.state = GS_AKMODS_STATE_ENROLLED ∨ r.state = GS_AKMODS_STATE_PENDING ∨
      r.state = GS_AKMODS_STATE_ERROR := by
  have himp : ∀ (first x : HelperRun),
      Option.map first.andThen (gs_akmods_helper_import w.stdin w.import_key) = some x →
      x.state = GS_AKMODS_STATE_ENROLLED ∨ x.state = GS_AKMODS_STATE_PENDING ∨
        x.state = GS_AKMODS_STATE_ERROR := by
    intro first x hx
    rcases hi : gs_akmods_helper_import w.stdin w.import_key with _ | imported
    · simp [hi] at hx
    · simp only [hi, Option.map_some', Option.some.injEq] at hx
      subst hx
      rcases helper_import_state _ _ _ hi with h | h
      · exact Or.inr (Or.inr h)
      · exact Or.inr (Or.inl h)
  rcases hst : probe.state with _ | _ | _ | _ | _
  · rw [helper_enroll_of_settled w probe hp (Or.inl hst)] at hr
    injection hr with hr
    subst hr
    exact Or.inl hst
  · rw [helper_enroll_of_not_found w probe hp hst] at hr
    rcases helper_generate_state w.kmodgenca with hg | hg
    · simp only [hg, reduceCtorEq, if_false, Option.some.injEq] at hr
      subst hr
      exact Or.inr (Or.inr hg)
    · simp only [hg, if_true] at hr
      exact himp _ r hr
  · rw [helper_enroll_of_not_enrolled w probe hp hst] at hr
    exact himp _ r hr
  · rw [helper_enroll_of_settled w probe hp (Or.inr hst)] at hr
    injection hr with hr
    subst hr
    exact Or.inr (Or.inl hst)
  · exact absurd hst hne

/-- C14, the code at the failing input: the first `mokutil --test-key` cannot
be forked, the repeated probe runs and reports "is not enrolled" with exit
status 1. `gs_akmods_helper_enroll` returns `NOT_ENROLLED`, having started the
verification tool twice and nothing else; the library maps the helper's exit
code 2 to `NOT_ENROLLED` without error, the dialog's thread function returns
`TRUE` for it and the dialog callback reboots. -/
theorem helper_enroll_returns_not_enrolled :
    gs_akmods_helper_enroll
        ⟨true, .error ⟨G_SPAWN_ERROR, 0, "Failed to fork".toList⟩,
          true, .ok ⟨none, some NOT_ENROLLED_OUTPUT, some [], .exited 1, []⟩,
          .ok ⟨none, some [], some [], .exited 0, []⟩, "secret".toList,
          .ok ⟨some ⟨fun _ => none, none, none⟩, some [], some [], .exited 0, []⟩⟩
      = some ⟨GS_AKMODS_STATE_NOT_ENROLLED, [],
          [⟨["mokutil", "--test-key", GS_AKMODS_KEY_FILENAME], []⟩,
            ⟨["mokutil", "--test-key", GS_AKMODS_KEY_FILENAME], []⟩]⟩ ∧
    GsAkmodsState.toInt GS_AKMODS_STATE_NOT_ENROLLED = 2 ∧
    gs_akmods_enroll_sync "/usr/libexec" (some "secret".toList) none
        (.ok ⟨some ⟨fun _ => none, none, none⟩, some [], some [], .exited 2, []⟩)
      = some ⟨GS_AKMODS_STATE_NOT_ENROLLED, none,
          [⟨["pkexec", "/usr/libexec/gnome-software-akmods-helper", "--enroll"],
            "secret".toList⟩]⟩ ∧
    gs_akmods_dialog_prepare_reboot_thread
        ⟨GS_AKMODS_STATE_NOT_ENROLLED, none,
          [⟨["pkexec", "/usr/libexec/gnome-software-akmods-helper", "--enroll"],
            "secret".toList⟩]⟩
      = some none ∧
    gs_akmods_dialog_prepare_reboot_cb none = .reboot_and_close := by
  refine ⟨by decide, by decide, by decide, by decide, by decide⟩

/-! ## C15 -/

theorem secureboot_known (s : GsSecurebootState) (h : s ≠ GS_SECUREBOOT_STATE_UNKNOWN)
    (spawn : Except GError SpawnSyncOutput) :
    gs_akmods_get_secureboot_state_sync s spawn = ⟨s, s, []⟩ := by
  simp [gs_akmods_get_secureboot_state_sync, h]

theorem secureboot_calls_known (s : GsSecurebootState) (h : s ≠ GS_SECUREBOOT_STATE_UNKNOWN)
    (worlds : List (Except GError SpawnSyncOutput)) :
    secureboot_calls s worlds = (s, List.replicate worlds.length s, []) := by
  induction worlds with
  | nil => rfl
  | cons w ws ih =>
    simp only [secureboot_calls, secureboot_known s h w, ih, List.length_cons,
      List.replicate_succ, List.append_nil]

theorem secureboot_unknown_spawned (spawn : Except GError SpawnSyncOutput) :
    (gs_akmods_get_secureboot_state_sync GS_SECUREBOOT_STATE_UNKNOWN spawn).spawned
      = [⟨["mokutil", "--sb-state"], []⟩] := by
  unfold gs_akmods_get_secureboot_state_sync
  simp only [ne_eq, not_true_eq_false, if_false]
  repeat' split
  all_goals rfl

theorem secureboot_returns_static (s : GsSecurebootState)
    (spawn : Except GError SpawnSyncOutput) :
    (gs_akmods_get_secureboot_state_sync s spawn).secureboot_state
      = (gs_akmods_get_secureboot_state_sync s spawn).state := by
  unfold gs_akmods_get_secureboot_state_sync
  simp only
  repeat' split
  all_goals rfl

/-- C15: (1) once the static holds `ENABLED`, `DISABLED` or `NOT_SUPPORTED`,
a call of `gs_akmods_get_secureboot_state_sync` returns it, keeps it and
starts no process; (2) so does every series of later calls, whatever the
tool would answer; (3) when a call made in state `UNKNOWN` classifies the
state, that call started `mokutil --sb-state` once, and the next call
returns the same value and starts nothing, so the two calls together start
the tool exactly once; (4) `gs_akmods_get_last_secureboot_state` returns the
static, keeps it and starts nothing. -/
theorem secureboot_state_is_memoized (s : GsSecurebootState)
    (first second : Except GError SpawnSyncOutput)
    (worlds : List (Except GError SpawnSyncOutput)) :
    (s ≠ GS_SECUREBOOT_STATE_UNKNOWN →
      gs_akmods_get_secureboot_state_sync s first = ⟨s, s, []⟩ ∧
      secureboot_calls s worlds = (s, List.replicate worlds.length s, [])) ∧
    ((gs_akmods_get_secureboot_state_sync GS_SECUREBOOT_STATE_UNKNOWN first).state
        ≠ GS_SECUREBOOT_STATE_UNKNOWN →
      gs_akmods_get_secureboot_state_sync
          (gs_akmods_get_secureboot_state_sync GS_SECUREBOOT_STATE_UNKNOWN
            first).secureboot_state second
        = ⟨(gs_akmods_get_secureboot_state_sync GS_SECUREBOOT_STATE_UNKNOWN first).state,
            (gs_akmods_get_secureboot_state_sync GS_SECUREBOOT_STATE_UNKNOWN first).state,
            []⟩ ∧
      (gs_akmods_get_secureboot_state_sync GS_SECUREBOOT_STATE_UNKNOWN first).spawned
          ++ (gs_akmods_get_secureboot_state_sync
              (gs_akmods_get_secureboot_state_sync GS_SECUREBOOT_STATE_UNKNOWN
                first).secureboot_state second).spawned
        = [⟨["mokutil", "--sb-state"], []⟩]) ∧
    gs_akmods_get_last_secureboot_state s = ⟨s, s, []⟩ := by
  refine ⟨fun h => ⟨secureboot_known s h first, secureboot_calls_known s h worlds⟩, ?_, rfl⟩
  intro h
  have hst := secureboot_returns_static GS_SECUREBOOT_STATE_UNKNOWN first
  rw [hst, secureboot_known _ h second, secureboot_unknown_spawned]
  exact ⟨rfl, rfl⟩

/-- Witness for C15: the tool says "SecureBoot enabled", then would say
something else. -/
theorem secureboot_state_is_memoized_witness :
    GS_SECUREBOOT_STATE_ENABLED ≠ GS_SECUREBOOT_STATE_UNKNOWN ∧
    (gs_akmods_get_secureboot_state_sync GS_SECUREBOOT_STATE_UNKNOWN
        (.ok ⟨some ENABLED_OUTPUT, some [], 0⟩)).state = GS_SECUREBOOT_STATE_ENABLED ∧
    secureboot_calls GS_SECUREBOOT_STATE_ENABLED
        [.ok ⟨some DISABLED_OUTPUT, some [], 0⟩, .error ⟨G_SPAWN_ERROR, 8, []⟩]
      = (GS_SECUREBOOT_STATE_ENABLED,
          List.replicate 2 GS_SECUREBOOT_STATE_ENABLED, []) ∧
    (gs_akmods_get_secureboot_state_sync GS_SECUREBOOT_STATE_UNKNOWN
          (.ok ⟨some ENABLED_OUTPUT, some [], 0⟩)).spawned
        ++ (gs_akmods_get_secureboot_state_sync
            (gs_akmods_get_secureboot_state_sync GS_SECUREBOOT_STATE_UNKNOWN
              (.ok ⟨some ENABLED_OUTPUT, some [], 0⟩)).secureboot_state
            (.ok ⟨some DISABLED_OUTPUT, some [], 0⟩)).spawned
      = [⟨["mokutil", "--sb-state"], []⟩] :=
  ⟨by decide, by decide,
    ((secureboot_state_is_memoized GS_SECUREBOOT_STATE_ENABLED
      (.ok ⟨some ENABLED_OUTPUT, some [], 0⟩) (.ok ⟨some DISABLED_OUTPUT, some [], 0⟩)
      [.ok ⟨some DISABLED_OUTPUT, some [], 0⟩, .error ⟨G_SPAWN_ERROR, 8, []⟩]).1
        (by decide)).2,
    ((secureboot_state_is_memoized GS_SECUREBOOT_STATE_ENABLED
      (.ok ⟨some ENABLED_OUTPUT, some [], 0⟩) (.ok ⟨some DISABLED_OUTPUT, some [], 0⟩)
      []).2.1 (by decide)).2⟩

/-! ## C16 -/

theorem secureboot_literals_have_no_nul :
    (∀ c ∈ ENABLED_OUTPUT, c.toNat ≠ 0) ∧ (∀ c ∈ DISABLED_OUTPUT, c.toNat ≠ 0) ∧
    (∀ c ∈ NOT_SUPPORTED_OUTPUT, c.toNat ≠ 0) := by
  decide

/-- C16: a call of `gs_akmods_get_secureboot_state_sync` made in state
`UNKNOWN` starts `mokutil --sb-state` once and (1) returns and stores
`ENABLED` when stdout begins, ignoring ASCII case, with "SecureBoot
enabled\n"; (2) `DISABLED` when it begins with "SecureBoot disabled\n";
(3) `NOT_SUPPORTED` when stdout is empty and stderr begins with "EFI
variables are not supported on this system\n"; (4) returns `UNKNOWN` and
leaves the static `UNKNOWN` when the tool cannot be started, (5) when there
is no standard output, (6) and for any other text; (7) a call made while the
static is `UNKNOWN` always starts the tool, so after (4), (5), (6) the next
call tries again. -/
theorem secureboot_classification (out : List Char) (err : Option (List Char))
    (wait_status : Int) (e : GError) (next : Except GError SpawnSyncOutput) :
    (begins_ignoring_case out ENABLED_OUTPUT →
      gs_akmods_get_secureboot_state_sync GS_SECUREBOOT_STATE_UNKNOWN
          (.ok ⟨some out, err, wait_status⟩)
        = ⟨GS_SECUREBOOT_STATE_ENABLED, GS_SECUREBOOT_STATE_ENABLED,
            [⟨["mokutil", "--sb-state"], []⟩]⟩) ∧
    (begins_ignoring_case out DISABLED_OUTPUT →
      gs_akmods_get_secureboot_state_sync GS_SECUREBOOT_STATE_UNKNOWN
          (.ok ⟨some out, err, wait_status⟩)
        = ⟨GS_SECUREBOOT_STATE_DISABLED, GS_SECUREBOOT_STATE_DISABLED,
            [⟨["mokutil", "--sb-state"], []⟩]⟩) ∧
    (∀ errtext, err = some errtext → begins_ignoring_case errtext NOT_SUPPORTED_OUTPUT →
      gs_akmods_get_secureboot_state_sync GS_SECUREBOOT_STATE_UNKNOWN
          (.ok ⟨some [], err, wait_status⟩)
        = ⟨GS_SECUREBOOT_STATE_NOT_SUPPORTED, GS_SECUREBOOT_STATE_NOT_SUPPORTED,
            [⟨["mokutil", "--sb-state"], []⟩]⟩) ∧
    gs_akmods_get_secureboot_state_sync GS_SECUREBOOT_STATE_UNKNOWN (.error e)
      = ⟨GS_SECUREBOOT_STATE_UNKNOWN, GS_SECUREBOOT_STATE_UNKNOWN,
          [⟨["mokutil", "--sb-state"], []⟩]⟩ ∧
    gs_akmods_get_secureboot_state_sync GS_SECUREBOOT_STATE_UNKNOWN
        (.ok ⟨none, err, wait_status⟩)
      = ⟨GS_SECUREBOOT_STATE_UNKNOWN, GS_SECUREBOOT_STATE_UNKNOWN,
          [⟨["mokutil", "--sb-state"], []⟩]⟩ ∧
    (¬ begins_ignoring_case out ENABLED_OUTPUT → ¬ begins_ignoring_case out DISABLED_OUTPUT →
      ¬ (out = [] ∧ ∃ errtext, err = some errtext ∧
          begins_ignoring_case errtext NOT_SUPPORTED_OUTPUT) →
      gs_akmods_get_secureboot_state_sync GS_SECUREBOOT_STATE_UNKNOWN
          (.ok ⟨some out, err, wait_status⟩)
        = ⟨GS_SECUREBOOT_STATE_UNKNOWN, GS_SECUREBOOT_STATE_UNKNOWN,
            [⟨["mokutil", "--sb-state"], []⟩]⟩) ∧
    (gs_akmods_get_secureboot_state_sync GS_SECUREBOOT_STATE_UNKNOWN next).spawned
      = [⟨["mokutil", "--sb-state"], []⟩] := by
  have hE := strncasecmp_zero_iff _ secureboot_literals_have_no_nul.1
  have hD := strncasecmp_zero_iff _ secureboot_literals_have_no_nul.2.1
  have hN := strncasecmp_zero_iff _ secureboot_literals_have_no_nul.2.2
  refine ⟨?_, ?_, ?_, ?_, ?_, ?_, secureboot_unknown_spawned next⟩
  · intro h
    simp [gs_akmods_get_secureboot_state_sync, (hE out).2 h]
  · intro h
    have hne : ¬ g_ascii_strncasecmp out ENABLED_OUTPUT ENABLED_OUTPUT.length = 0 := by
      intro h0
      have := begins_common out _ _ h ((hE out).1 h0)
      revert this
      decide
    simp [gs_akmods_get_secureboot_state_sync, (hD out).2 h, hne]
  · intro errtext herr h
    have h1 : ¬ g_ascii_strncasecmp [] ENABLED_OUTPUT ENABLED_OUTPUT.length = 0 := by decide
    have h2 : ¬ g_ascii_strncasecmp [] DISABLED_OUTPUT DISABLED_OUTPUT.length = 0 := by decide
    simp [gs_akmods_get_secureboot_state_sync, herr, (hN errtext).2 h, h1, h2]
  · simp [gs_akmods_get_secureboot_state_sync]
  · simp [gs_akmods_get_secureboot_state_sync]
  · intro h1 h2 h3
    have n1 := mt (hE out).1 h1
    have n2 := mt (hD out).1 h2
    rcases err with _ | errtext
    · simp [gs_akmods_get_secureboot_state_sync, n1, n2]
    · have n3 : ¬ (out = [] ∧
          g_ascii_strncasecmp errtext NOT_SUPPORTED_OUTPUT NOT_SUPPORTED_OUTPUT.length = 0) := by
        rintro ⟨ho, hz⟩
        exact h3 ⟨ho, errtext, rfl, (hN errtext).1 hz⟩
      simp only [gs_akmods_get_secureboot_state_sync, ne_eq, not_true_eq_false, if_false, n1,
        n2, n3]

/-- Witness for C16: upper-case "SECUREBOOT ENABLED", "SecureBoot disabled",
the EFI complaint on stderr, and an unrelated line. -/
theorem secureboot_classification_witness :
    (gs_akmods_get_secureboot_state_sync GS_SECUREBOOT_STATE_UNKNOWN
        (.ok ⟨some "SECUREBOOT ENABLED\n".toList, some [], 0⟩)).state
      = GS_SECUREBOOT_STATE_ENABLED ∧
    (gs_akmods_get_secureboot_state_sync GS_SECUREBOOT_STATE_UNKNOWN
        (.ok ⟨some "SecureBoot disabled\nPlatform is in Setup Mode\n".toList, some [], 0⟩)).state
      = GS_SECUREBOOT_STATE_DISABLED ∧
    (gs_akmods_get_secureboot_state_sync GS_SECUREBOOT_STATE_UNKNOWN
        (.ok ⟨some [], some NOT_SUPPORTED_OUTPUT, 65280⟩)).state
      = GS_SECUREBOOT_STATE_NOT_SUPPORTED ∧
    (gs_akmods_get_secureboot_state_sync GS_SECUREBOOT_STATE_UNKNOWN
        (.ok ⟨some "hello\n".toList, some [], 0⟩)).secureboot_state
      = GS_SECUREBOOT_STATE_UNKNOWN :=
  ⟨congrArg SecurebootResult.state
      ((secureboot_classification "SECUREBOOT ENABLED\n".toList (some []) 0
        ⟨G_SPAWN_ERROR, 8, []⟩ (.error ⟨G_SPAWN_ERROR, 8, []⟩)).1 (by decide)),
    congrArg SecurebootResult.state
      ((secureboot_classification "SecureBoot disabled\nPlatform is in Setup Mode\n".toList
        (some []) 0 ⟨G_SPAWN_ERROR, 8, []⟩ (.error ⟨G_SPAWN_ERROR, 8, []⟩)).2.1 (by decide)),
    congrArg SecurebootResult.state
      ((secureboot_classification [] (some NOT_SUPPORTED_OUTPUT) 65280
        ⟨G_SPAWN_ERROR, 8, []⟩ (.error ⟨G_SPAWN_ERROR, 8, []⟩)).2.2.1 _ rfl (by decide)),
    congrArg SecurebootResult.secureboot_state
      ((secureboot_classification "hello\n".toList (some []) 0
        ⟨G_SPAWN_ERROR, 8, []⟩ (.error ⟨G_SPAWN_ERROR, 8, []⟩)).2.2.2.2.2.1
          (by decide) (by decide) (by decide))⟩

/-! ## C17 -/

theorem write_calls_accepted (stream : GOutputStream) (password : List Char)
    (h : accepts_password stream) :
    write_calls stream 0 [password, ['\n'], password, ['\n']]
      = [.write_all password, .write_all ['\n'], .write_all password, .write_all ['\n']] := by
  obtain ⟨h0, h1, h2, h3, _⟩ := h
  simp [write_calls, h0, h1, h2, h3]

theorem write_chunks_written (stream : GOutputStream) (chunks : List (List Char)) (k : Nat) :
    ∃ rest, (write_chunks stream k chunks).2 ++ rest = chunks.flatten := by
  induction chunks generalizing k with
  | nil => exact ⟨[], rfl⟩
  | cons c cs ih =>
    unfold write_chunks
    cases stream.write_all k with
    | some e => exact ⟨(c :: cs).flatten, rfl⟩
    | none =>
      obtain ⟨rest, hrest⟩ := ih (k + 1)
      exact ⟨rest, by simp [List.append_assoc, hrest]⟩

/-- C17: `gs_akmods_helper_import` with a non-empty password `P`, a
submission tool that starts with a stdin pipe, and a stream that accepts the
writes and the flush: (1) the bytes written to the tool's standard input are
`P`, a newline, `P`, a newline, and the function goes on to return `PENDING`
or `ERROR`; (2) the calls made for the child are, in this order, the spawn,
the four writes, the flush, and only then the two stream reads and the wait;
(3) whatever the stream does, the bytes written are a beginning of
`P \n P \n`, never anything else. -/
theorem helper_import_feeds_password_twice (password : List Char) (m : GSubprocess)
    (stream : GOutputStream) (hpw : password ≠ []) (hpipe : m.stdin_pipe = some stream) :
    (accepts_password stream →
      (∃ state printed, gs_akmods_helper_import password (.ok m)
        = some ⟨state, printed,
            [⟨["mokutil", "--import", GS_AKMODS_KEY_FILENAME],
              password ++ ['\n'] ++ password ++ ['\n']⟩]⟩) ∧
      gs_akmods_helper_import_calls password (.ok m)
        = [.spawn ["mokutil", "--import", GS_AKMODS_KEY_FILENAME],
            .write_all password, .write_all ['\n'], .write_all password, .write_all ['\n'],
            .flush, .read_stdout, .read_stderr, .wait_check]) ∧
    (∀ r, gs_akmods_helper_import password (.ok m) = some r →
      ∃ input rest, r.spawned = [⟨["mokutil", "--import", GS_AKMODS_KEY_FILENAME], input⟩] ∧
        input ++ rest = password ++ ['\n'] ++ password ++ ['\n']) := by
  have hlen : ¬ password.length = 0 := by
    intro h0
    exact hpw (List.length_eq_zero.1 h0)
  constructor
  · intro hacc
    have hw := write_chunks_accepted stream password hacc
    have hw2 : write_chunks stream 0 [password, ['\n'], password, ['\n']]
        = (none, password ++ ['\n'] ++ password ++ ['\n']) := by
      rw [hw]
      simp
    have hc := write_calls_accepted stream password hacc
    constructor
    · unfold gs_akmods_helper_import
      simp only [hlen, if_false, hpipe, hw2, hacc.2.2.2.2]
      repeat' split
      all_goals exact ⟨_, _, rfl⟩
    · simp [gs_akmods_helper_import_calls, hlen, hpipe, hw, hc, hacc.2.2.2.2]
  · intro r hr
    obtain ⟨rest, hrest⟩ := write_chunks_written stream [password, ['\n'], password, ['\n']] 0
    have hjoin : [password, ['\n'], password, ['\n']].flatten
        = password ++ ['\n'] ++ password ++ ['\n'] := by simp
    rw [hjoin] at hrest
    unfold gs_akmods_helper_import at hr
    simp only [hlen, if_false, hpipe] at hr
    repeat' split at hr
    all_goals
      injection hr with hr
      subst hr
      exact ⟨_, rest, rfl, hrest⟩

/-- Witness for C17: password `secret`, the tool accepts it and exits zero. -/
theorem helper_import_feeds_password_twice_witness :
    "secret".toList ≠ [] ∧
    accepts_password ⟨fun _ => none, none, none⟩ ∧
    gs_akmods_helper_import "secret".toList
        (.ok ⟨some ⟨fun _ => none, none, none⟩, some "input password: ".toList, some [],
          .exited 0, []⟩)
      = some ⟨GS_AKMODS_STATE_PENDING, [],
          [⟨["mokutil", "--import", GS_AKMODS_KEY_FILENAME], "secret\nsecret\n".toList⟩]⟩ ∧
    gs_akmods_helper_import_calls "secret".toList
        (.ok ⟨some ⟨fun _ => none, none, none⟩, some "input password: ".toList, some [],
          .exited 0, []⟩)
      = [.spawn ["mokutil", "--import", GS_AKMODS_KEY_FILENAME],
          .write_all "secret".toList, .write_all ['\n'], .write_all "secret".toList,
          .write_all ['\n'], .flush, .read_stdout, .read_stderr, .wait_check] :=
  ⟨by decide, ⟨rfl, rfl, rfl, rfl, rfl⟩, by decide,
    ((helper_import_feeds_password_twice "secret".toList
      ⟨some ⟨fun _ => none, none, none⟩, some "input password: ".toList, some [], .exited 0, []⟩
      ⟨fun _ => none, none, none⟩ (by decide) rfl).1 ⟨rfl, rfl, rfl, rfl, rfl⟩).2⟩

/-! ## C18 -/

/-- C18 as stated fails: `gs_akmods_enroll_sync` with the password `secret`
and a helper that takes its input writes the six bytes `secret` to the
helper's standard input, without a terminating newline. -/
theorem enroll_sync_writes_no_newline :
    gs_akmods_enroll_sync "/usr/libexec" (some "secret".toList) none
        (.ok ⟨some ⟨fun _ => none, none, none⟩, some [], some [], .exited 3, []⟩)
      = some ⟨GS_AKMODS_STATE_PENDING, none,
          [⟨["pkexec", "/usr/libexec/gnome-software-akmods-helper", "--enroll"],
            "secret".toList⟩]⟩ ∧
    "secret".toList ≠ "secret\n".toList := by
  constructor <;> decide

theorem feed_stdin_written (p : GSubprocess) (password : List Char) :
    (feed_stdin p (some password)).2 = password ∨ (feed_stdin p (some password)).2 = [] := by
  unfold feed_stdin
  simp only
  repeat' split
  all_goals first
    | exact Or.inl rfl
    | exact Or.inr rfl

theorem execute_sync_spawned_input (args : List String) (stdin_str : Option (List Char))
    (cancellable : Option GCancellable) (p : GSubprocess) :
    (gs_akmods_execute_sync args stdin_str cancellable (.ok p)).spawned
      = [⟨args, (feed_stdin p stdin_str).2⟩] := by
  rcases hf : feed_stdin p stdin_str with ⟨_ | e, input⟩
  · simp only [gs_akmods_execute_sync, hf]
    unfold finish_with_error
    repeat' split
    all_goals rfl
  · simp only [gs_akmods_execute_sync, hf]

/-- C18, amended: for every password, `gs_akmods_enroll_sync` starts exactly
one process, whose argument list is `pkexec`, the helper path and `--enroll`
and does not depend on the password; the only bytes it writes to the
helper's standard input are the password bytes as given, with nothing
appended (or nothing at all when the spawn or the write fails); when the
helper starts and the stream takes the write, the flush and the close, the
bytes written are exactly the password. -/
theorem enroll_sync_password_on_stdin_only (libexecdir : String) (password : List Char)
    (cancellable : Option GCancellable) (spawn : Except GError GSubprocess) :
    ∃ r, gs_akmods_enroll_sync libexecdir (some password) cancellable spawn = some r ∧
      r.spawned.map Invocation.argv
        = [["pkexec", libexecdir ++ "/gnome-software-akmods-helper", "--enroll"]] ∧
      (∀ inv ∈ r.spawned, inv.input = password ∨ inv.input = []) ∧
      (∀ (p : GSubprocess) (stream : GOutputStream), spawn = .ok p →
        p.stdin_pipe = some stream → stream.write_all 0 = none → stream.flush = none →
        stream.close = none →
        r.spawned
          = [⟨["pkexec", libexecdir ++ "/gnome-software-akmods-helper", "--enroll"],
              password⟩]) := by
  refine ⟨_, rfl, execute_sync_spawned _ _ _ _, ?_, ?_⟩
  · intro inv hinv
    cases spawn with
    | error e =>
      simp only [gs_akmods_execute_sync, List.mem_singleton] at hinv
      subst hinv
      exact Or.inr rfl
    | ok p =>
      rw [execute_sync_spawned_input, List.mem_singleton] at hinv
      subst hinv
      exact feed_stdin_written p password
  · intro p stream hsp hpipe hw hfl hcl
    subst hsp
    rw [execute_sync_spawned_input]
    simp [feed_stdin, hpipe, hw, hfl, hcl]

/-- Witness for the amended C18: password `secret`, the helper takes its
input and reports `PENDING`. -/
theorem enroll_sync_password_on_stdin_only_witness :
    ∃ r, gs_akmods_enroll_sync "/usr/libexec" (some "secret".toList) none
        (.ok ⟨some ⟨fun _ => none, none, none⟩, some [], some [], .exited 3, []⟩) = some r ∧
      r.spawned
        = [⟨["pkexec", "/usr/libexec" ++ "/gnome-software-akmods-helper", "--enroll"],
            "secret".toList⟩] := by
  obtain ⟨r, hr, _, _, h⟩ := enroll_sync_password_on_stdin_only "/usr/libexec"
    "secret".toList none
    (.ok ⟨some ⟨fun _ => none, none, none⟩, some [], some [], .exited 3, []⟩)
  exact ⟨r, hr, h _ ⟨fun _ => none, none, none⟩ rfl rfl rfl rfl rfl⟩

/-! ## C19 -/

/-- C19, the code at the failing input: the helper cannot be started at
second 100, which returns `ERROR` with the spawn error and caches `ERROR`; a
second call one second later, the key directory still present, is answered
from the cache with `ERROR` and no error set, and the plugin's refine
callback then reads the message of a `NULL` error. -/
theorem key_state_cached_error_has_no_error :
    gs_akmods_get_key_state_sync "/usr/libexec" KeyStateCache.initial true 100000000 none
        (.error ⟨G_SPAWN_ERROR, 8, "No such file or directory".toList⟩) 100000020
      = ⟨GS_AKMODS_STATE_ERROR,
          some ⟨G_SPAWN_ERROR, 8, "No such file or directory".toList⟩,
          [⟨["pkexec", "/usr/libexec/gnome-software-akmods-helper", "--test"], []⟩],
          ⟨GS_AKMODS_STATE_ERROR, 100000020⟩⟩ ∧
    gs_akmods_get_key_state_sync "/usr/libexec" ⟨GS_AKMODS_STATE_ERROR, 100000020⟩ true
        101000000 none
        (.error ⟨G_SPAWN_ERROR, 8, "No such file or directory".toList⟩) 101000020
      = ⟨GS_AKMODS_STATE_ERROR, none, [], ⟨GS_AKMODS_STATE_ERROR, 100000020⟩⟩ ∧
    refine_key_state_message
        ⟨GS_AKMODS_STATE_ERROR, none, [], ⟨GS_AKMODS_STATE_ERROR, 100000020⟩⟩
      = none := by
  refine ⟨by decide, by decide, by decide⟩

theorem outcome_table_error_has_error (stdin_str : Option (List Char))
    (cancellable : Option GCancellable) (spawn : Except GError GSubprocess) :
    (runner_outcome_table stdin_str cancellable spawn).1 = GS_AKMODS_STATE_ERROR →
      (runner_outcome_table stdin_str cancellable spawn).2 = true := by
  unfold runner_outcome_table
  repeat' split
  all_goals
    intro h
    first
      | rfl
      | exact absurd h (by decide)

/-- Every call of `gs_akmods_get_key_state_sync` that is not answered from
the cache sets an error when it returns `ERROR`. -/
theorem key_state_error_set_unless_cached (libexecdir : String) (cache : KeyStateCache)
    (is_dir : Bool) (now : Int) (cancellable : Option GCancellable)
    (spawn : Except GError GSubprocess) (now_after : Int)
    (h : is_dir = false ∨ now > cache.last_state_time + G_USEC_PER_SEC * 5)
    (hs : (gs_akmods_get_key_state_sync libexecdir cache is_dir now cancellable spawn
      now_after).state = GS_AKMODS_STATE_ERROR) :
    (gs_akmods_get_key_state_sync libexecdir cache is_dir now cancellable spawn
      now_after).error.isSome = true := by
  cases is_dir with
  | false => simp [gs_akmods_get_key_state_sync]
  | true =>
    have hp : now > cache.last_state_time + G_USEC_PER_SEC * 5 := by
      rcases h with h | h
      · exact absurd h (by decide)
      · exact h
    simp only [gs_akmods_get_key_state_sync, hp, Bool.not_true, Bool.false_eq_true, if_false,
      if_true] at hs ⊢
    have ht := execute_sync_table
      ["pkexec", libexecdir ++ "/gnome-software-akmods-helper", "--test"] none cancellable spawn
    have h1 := congrArg Prod.fst ht
    have h2 := congrArg Prod.snd ht
    simp only at h1 h2
    rw [h2]
    apply outcome_table_error_has_error
    rw [← h1]
    exact hs

/-! ## C20 -/

/-- C20: in `gs_akmods_helper_test`, when the verification tool exits with
any non-zero status, stdout has no text and stderr is not empty: (1) a
stderr that begins, ignoring ASCII case, with "Failed to open
/etc/pki/akmods/certs/public_key.der\n" gives `NOT_FOUND`, with nothing
printed; (2) any other stderr gives `ERROR`. -/
theorem helper_test_failed_to_open (with_print : Bool) (stdin_pipe : Option GOutputStream)
    (stdout_pipe : Option (List Char)) (errtext : List Char) (c : Nat)
    (wait_message : List Char) (hout : has_text stdout_pipe = false) (herr : errtext ≠ []) :
    (begins_ignoring_case errtext NOT_FOUND_ERROR →
      gs_akmods_helper_test with_print true
          (.ok ⟨stdin_pipe, stdout_pipe, some errtext, .exited (c + 1), wait_message⟩)
        = some ⟨GS_AKMODS_STATE_NOT_FOUND, [],
            [⟨["mokutil", "--test-key", GS_AKMODS_KEY_FILENAME], []⟩]⟩) ∧
    (¬ begins_ignoring_case errtext NOT_FOUND_ERROR →
      Option.map HelperRun.state
        (gs_akmods_helper_test with_print true
          (.ok ⟨stdin_pipe, stdout_pipe, some errtext, .exited (c + 1), wait_message⟩))
        = some GS_AKMODS_STATE_ERROR) := by
  have hN := strncasecmp_zero_iff _ literals_have_no_nul.2.2.2.2 errtext
  have hrs : ∀ v : Option (List Char), gs_akmods_helper_read_stream v = v := by
    intro v
    cases v <;> rfl
  have hre : has_text (some errtext) = true := by
    cases errtext with
    | nil => exact absurd rfl herr
    | cons a t => rfl
  constructor
  · intro h
    simp [gs_akmods_helper_test, g_subprocess_wait_check, g_spawn_check_wait_status, hrs,
      hout, hre, text_or_empty, hN.2 h]
  · intro h
    have hn := mt hN.1 h
    simp [gs_akmods_helper_test, g_subprocess_wait_check, g_spawn_check_wait_status, hrs,
      hout, hre, text_or_empty, hn]

/-- Witness for C20: exit status 255 with the "Failed to open" line, and with
another line. -/
theorem helper_test_failed_to_open_witness :
    has_text (some []) = false ∧ NOT_FOUND_ERROR ≠ [] ∧
    begins_ignoring_case NOT_FOUND_ERROR NOT_FOUND_ERROR ∧
    gs_akmods_helper_test true true
        (.ok ⟨none, some [], some NOT_FOUND_ERROR, .exited (254 + 1), []⟩)
      = some ⟨GS_AKMODS_STATE_NOT_FOUND, [],
          [⟨["mokutil", "--test-key", GS_AKMODS_KEY_FILENAME], []⟩]⟩ ∧
    Option.map HelperRun.state
      (gs_akmods_helper_test true true
        (.ok ⟨none, some [], some "EFI variables are not supported\n".toList,
          .exited (254 + 1), []⟩))
      = some GS_AKMODS_STATE_ERROR :=
  ⟨rfl, by decide, by decide,
    (helper_test_failed_to_open true none (some []) NOT_FOUND_ERROR 254 [] rfl
      (by decide)).1 (by decide),
    (helper_test_failed_to_open true none (some []) "EFI variables are not supported\n".toList
      254 [] rfl (by decide)).2 (by decide)⟩

end Akmods
